import Mathlib

/-!
Verification development for the streaming scan-log interpreter
(`launcher_parser.py`): a shallow embedding of the `NetworkScanParser`
class and its `main` driver, together with theorems settling the frozen
claims about the data model, the accumulator, the phase state machine,
the summary renderers and the interruption handler.

Modelling conventions:
* terminal output is the list of `print` payload strings, in order
  (embedded `\n` characters from the original f-strings are kept);
* colors are modelled in the non-tty configuration, where every color
  code is the empty string;
* wall-clock reads (scan duration, report timestamp) are passed in as
  explicit parameters `elapsed`/`now`, since no claim concerns time;
* Python regexes are translated to deterministic character-list
  parsers; the determinisation is justified branch by branch in the
  comments (the patterns have no essential backtracking);
* character classes are the ASCII readings of `\d`, `\w`, `\s`
  (inputs are ASCII scan logs).
-/

namespace ScanParser

/-- Python `\s` (ASCII): space, tab, newline, carriage return, form feed,
vertical tab. -/
def isWsCh (c : Char) : Bool :=
  c = ' ' || c = '\t' || c = '\n' || c = '\r' || c = '\x0c' || c = '\x0b'

/-- Python `\d` (ASCII): `[0-9]`. -/
def isDigitCh (c : Char) : Bool := c.isDigit

/-- Python `\w` (ASCII): `[A-Za-z0-9_]`. -/
def isWordCh (c : Char) : Bool := c.isAlphanum || c = '_'

/-- The class `[\w\-]`. -/
def isWordDashCh (c : Char) : Bool := isWordCh c || c = '-'

/-- The class `[A-Fa-f0-9:]` used for MAC addresses. -/
def isMacCh (c : Char) : Bool :=
  c.isDigit || ('a' ≤ c && c ≤ 'f') || ('A' ≤ c && c ≤ 'F') || c = ':'

/-- Python `str.strip()`. -/
def pyStrip (s : String) : String :=
  String.mk (((s.data.dropWhile isWsCh).reverse.dropWhile isWsCh).reverse)

/-- Python `str.rstrip()` (applied by `main` to each stdin line). -/
def pyRstrip (s : String) : String :=
  String.mk ((s.data.reverse.dropWhile isWsCh).reverse)

/-- Python `pattern in line` (substring containment). -/
def listContainsSub (hay pat : List Char) : Bool :=
  match hay with
  | [] => pat.isEmpty
  | c :: t => pat.isPrefixOf (c :: t) || listContainsSub t pat

def strContainsSub (hay pat : String) : Bool :=
  listContainsSub hay.data pat.data

/-- Maximal run of characters satisfying `p` (regex greedy `X+`/`X*`). -/
def takeRun (p : Char → Bool) (cs : List Char) : List Char × List Char :=
  (cs.takeWhile p, cs.dropWhile p)

/-- Regex `\s+`: at least one whitespace character, consuming the maximal run. -/
def reqWsPlus (cs : List Char) : Option (List Char) :=
  let (w, r) := takeRun isWsCh cs
  if w.length ≥ 1 then some r else none

/-- Regex `[0-9]{1,3}\.` : since `.` is not a digit, the attempt succeeds exactly
when the maximal digit run has length 1–3 and is followed by a literal dot
(backtracking inside `{1,3}` cannot help: giving digits back leaves a digit
where the dot is required). Returns the consumed characters (digits and
dot) and the rest. -/
def matchOctetDot (cs : List Char) : Option (List Char × List Char) :=
  let (ds, r) := takeRun isDigitCh cs
  if 1 ≤ ds.length ∧ ds.length ≤ 3 then
    match r with
    | '.' :: r2 => some (ds ++ ['.'], r2)
    | _ => none
  else none

/-- Final octet `[0-9]{1,3}` when the pattern continues with a non-digit
requirement (`\s+` or a literal `:`): the maximal digit run must itself
have length 1–3 (shortening it leaves a digit where a non-digit is
required). -/
def matchOctetStrict (cs : List Char) : Option (List Char × List Char) :=
  let (ds, r) := takeRun isDigitCh cs
  if 1 ≤ ds.length ∧ ds.length ≤ 3 then some (ds, r) else none

/-- Final octet `[0-9]{1,3}` at the very end of a pattern
(`host_scan_pattern`): greedy, so it takes `min 3 len` digits of the run
and succeeds whenever the run is non-empty. -/
def matchOctetGreedy (cs : List Char) : Option (List Char × List Char) :=
  let (ds, r) := takeRun isDigitCh cs
  if 1 ≤ ds.length then
    if ds.length ≤ 3 then some (ds, r)
    else some (ds.take 3, ds.drop 3 ++ r)
  else none

/-- Regex `([0-9]{1,3}\.){3}` followed by a final octet matched by `last`.
Returns the matched IP text and the rest. -/
def matchIPv4With (last : List Char → Option (List Char × List Char))
    (cs : List Char) : Option (String × List Char) := do
  let (o1, r1) ← matchOctetDot cs
  let (o2, r2) ← matchOctetDot r1
  let (o3, r3) ← matchOctetDot r2
  let (o4, r4) ← last r3
  pure (String.mk (o1 ++ o2 ++ o3 ++ o4), r4)

/-- A non-empty maximal run of class characters (`X+` where the following
pattern element rejects class characters, so greedy maximal munch is
exact). -/
def matchRunPlus (cls : Char → Bool) (cs : List Char) :
    Option (List Char × List Char) :=
  let (t, r) := takeRun cls cs
  if t.length ≥ 1 then some (t, r) else none

/-- Python `int(s)` on a decimal-digit string (the regex groups fed to `int` are
always `\d+` matches): the base-10 value of the digit characters. -/
def toNatD (s : String) : Nat :=
  s.data.foldl (fun n c => n * 10 + (c.toNat - '0'.toNat)) 0

/-!
### The compiled patterns of `compile_patterns`

`host_pattern`, `port_pattern`, `service_pattern` are used with
`.match(line.strip())` — anchored at the start of the stripped line;
the searched patterns get a genuine leftmost-search driver.
-/

/-- Pattern `host_pattern`:
`\s*(ipv4)\s+([A-Fa-f0-9:]{17}|None)\s+(.*)` applied with `.match` to the
stripped line. The alternation needs no interleaved backtracking because
`N` is not in `[A-Fa-f0-9:]`, but the branch order (17-character class
first, then the literal `None`) is kept. `(.*)` takes the whole rest of
the line (lines contain no newline). Groups: (ip, mac, vendor). -/
def matchHostRow (line : String) : Option (String × String × String) :=
  let cs := (pyStrip line).data.dropWhile isWsCh
  match matchIPv4With matchOctetStrict cs with
  | none => none
  | some (ip, r1) =>
    match reqWsPlus r1 with
    | none => none
    | some r2 =>
      let branch17 : Option (String × List Char) :=
        let m := r2.take 17
        if m.length = 17 ∧ m.all isMacCh then
          match reqWsPlus (r2.drop 17) with
          | some r3 => some (String.mk m, r3)
          | none => none
        else none
      let branchNone : Option (String × List Char) :=
        if ("None".data).isPrefixOf r2 then
          match reqWsPlus (r2.drop 4) with
          | some r3 => some ("None", r3)
          | none => none
        else none
      match branch17.orElse (fun _ => branchNone) with
      | none => none
      | some (mac, r3) => some (ip, mac, String.mk r3)

/-- Pattern `port_pattern`:
`\s*(ipv4)\s+(\d+)\s+(\w+)\s+(\w+)\s+[\w\-]+\s+([\w\-]+)$` applied with
`.match` to the stripped line. Every `X+` group is followed by a pattern
element rejecting class characters, so maximal munch is exact; the final
`$` requires the last token to end the line. Groups:
(ip, port, protocol, state, service) — `port` kept as text, as in the
Python groups. -/
def matchPortRow (line : String) :
    Option (String × String × String × String × String) := do
  let cs := (pyStrip line).data.dropWhile isWsCh
  let (ip, r1) ← matchIPv4With matchOctetStrict cs
  let r2 ← reqWsPlus r1
  let (port, r3) ← matchRunPlus isDigitCh r2
  let r4 ← reqWsPlus r3
  let (proto, r5) ← matchRunPlus isWordCh r4
  let r6 ← reqWsPlus r5
  let (state, r7) ← matchRunPlus isWordCh r6
  let r8 ← reqWsPlus r7
  let (_reason, r9) ← matchRunPlus isWordDashCh r8
  let r10 ← reqWsPlus r9
  let (service, r11) ← matchRunPlus isWordDashCh r10
  if r11 = [] then
    pure (String.mk ip.data, String.mk port, String.mk proto,
          String.mk state, String.mk service)
  else none

/-- Pattern `service_pattern`:
`\s*(ipv4)\s+(\d+)\s+(\w+)\s+(\w+)\s+([\w\-]+)\s*(.*?)$` applied with
`.match` to the stripped line. After the service token, greedy `\s*`
takes the maximal whitespace run, and the lazy `(.*?)$` is forced to
take everything that remains. Groups:
(ip, port, protocol, state, service, fingerprint). -/
def matchServiceRow (line : String) :
    Option (String × String × String × String × String × String) := do
  let cs := (pyStrip line).data.dropWhile isWsCh
  let (ip, r1) ← matchIPv4With matchOctetStrict cs
  let r2 ← reqWsPlus r1
  let (port, r3) ← matchRunPlus isDigitCh r2
  let r4 ← reqWsPlus r3
  let (proto, r5) ← matchRunPlus isWordCh r4
  let r6 ← reqWsPlus r5
  let (state, r7) ← matchRunPlus isWordCh r6
  let r8 ← reqWsPlus r7
  let (service, r9) ← matchRunPlus isWordDashCh r8
  let r10 := r9.dropWhile isWsCh
  pure (String.mk ip.data, String.mk port, String.mk proto,
        String.mk state, String.mk service, String.mk r10)

/-- Python `re.search` driver: try the attempt at each start position, leftmost
first. -/
def searchWith {α : Type} (attempt : List Char → Option α) :
    List Char → Option α
  | [] => attempt []
  | c :: t =>
    match attempt (c :: t) with
    | some a => some a
    | none => searchWith attempt t

/-- One attempt of `host_scan_pattern` = `Scanning (ipv4)`: the literal
`Scanning ` followed by an IPv4 whose last octet is at the end of the
pattern (greedy up to three digits, no follower constraint). -/
def attemptHostScan (cs : List Char) : Option String :=
  if ("Scanning ".data).isPrefixOf cs then
    match matchIPv4With matchOctetGreedy (cs.drop 9) with
    | some (ip, _) => some ip
    | none => none
  else none

def searchHostScan (line : String) : Option String :=
  searchWith attemptHostScan line.data

/-- One attempt of `service_port_pattern` = `Port (ipv4):(\d+)`: the final
octet is followed by a literal `:`, then a non-empty greedy digit run as
the port group. -/
def attemptServicePort (cs : List Char) : Option (String × String) :=
  if ("Port ".data).isPrefixOf cs then
    match matchIPv4With matchOctetStrict (cs.drop 5) with
    | some (ip, r1) =>
      match r1 with
      | ':' :: r2 =>
        match matchRunPlus isDigitCh r2 with
        | some (ds, _) => some (ip, String.mk ds)
        | none => none
      | _ => none
    | none => none
  else none

def searchServicePort (line : String) : Option (String × String) :=
  searchWith attemptServicePort line.data

/-- One attempt of `service_count_pattern` =
`Performing service detection on (\d+) open ports?`: literal prefix, a
non-empty greedy digit run (its follower must be the space of
` open port`), the literal ` open port`, and an optional `s` that
constrains nothing further. -/
def attemptServiceCount (cs : List Char) : Option String :=
  if ("Performing service detection on ".data).isPrefixOf cs then
    match matchRunPlus isDigitCh (cs.drop 32) with
    | some (ds, r1) =>
      if (" open port".data).isPrefixOf r1 then some (String.mk ds) else none
    | none => none
  else none

def searchServiceCount (line : String) : Option String :=
  searchWith attemptServiceCount line.data

/-!
### Data model and session state (`NetworkScanParser.__init__`)
-/

structure HostRecord where
  IP : String
  MAC : String
  Vendor : String
deriving DecidableEq, Repr

structure PortRecord where
  IP : String
  Port : Nat
  Protocol : String
  State : String
  Service : String
deriving DecidableEq, Repr

structure ServiceRecord where
  IP : String
  Port : Nat
  Protocol : String
  State : String
  Service : String
  Fingerprint : String
deriving DecidableEq, Repr

structure ParserState where
  hosts_data : List HostRecord
  ports_data : List PortRecord
  services_data : List ServiceRecord
  current_phase : String
  current_host : Option String
  current_host_has_ports : Bool
  service_count : Nat
  total_services : Nat
deriving DecidableEq, Repr

def initState : ParserState :=
  { hosts_data := [], ports_data := [], services_data := [],
    current_phase := "STARTING", current_host := none,
    current_host_has_ports := false, service_count := 0, total_services := 0 }

/-- Python truthiness of `self.current_host` (`None` and `""` are falsy). -/
def truthyHost : Option String → Bool
  | none => false
  | some s => s ≠ ""

/-- Python `'─' * n` / `'x' * n`. -/
def srep (c : Char) (n : Nat) : String := String.mk (List.replicate n c)

/-!
### Row parsers (`parse_host_discovery`, `parse_port_scanning`,
`parse_service_detection`)

Each returns the new state and the list of `print` payloads.
-/

def parse_host_discovery (st : ParserState) (line : String) :
    ParserState × List String :=
  match matchHostRow line with
  | none => (st, [])
  | some (ip, mac, vendor) =>
    if st.hosts_data.any (fun host => host.IP = ip) then (st, [])
    else
      let host_info : HostRecord :=
        { IP := ip,
          MAC := if mac ≠ "None" then mac else "—",
          Vendor :=
            if pyStrip vendor ≠ "" ∧ pyStrip vendor ≠ "None" then pyStrip vendor
            else "—" }
      let vendor_text :=
        if host_info.Vendor ≠ "—" then " [" ++ host_info.Vendor ++ "]" else ""
      ({ st with hosts_data := st.hosts_data ++ [host_info] },
       ["+ Host discovered: " ++ ip ++ vendor_text])

def parse_port_scanning (st : ParserState) (line : String) :
    ParserState × List String :=
  match matchPortRow line with
  | none => (st, [])
  | some (ip, port, protocol, state, service) =>
    if state = "open" then
      let port_info : PortRecord :=
        { IP := ip, Port := toNatD port, Protocol := protocol,
          State := state, Service := service }
      if ¬ st.ports_data.any (fun p => p.IP = ip ∧ p.Port = toNatD port) then
        ({ st with ports_data := st.ports_data ++ [port_info],
                   current_host_has_ports := true },
         ["  + Port " ++ ip ++ ":" ++ port ++ " open (" ++ service ++ ")"])
      else (st, [])
    else (st, [])

def parse_service_detection (st : ParserState) (line : String) :
    ParserState × List String :=
  match matchServiceRow line with
  | none => (st, [])
  | some (ip, port, protocol, state, service, fingerprint) =>
    let service_info : ServiceRecord :=
      { IP := ip, Port := toNatD port, Protocol := protocol,
        State := state, Service := service,
        Fingerprint := if pyStrip fingerprint ≠ "" then pyStrip fingerprint
                       else "—" }
    if ¬ st.services_data.any (fun s => s.IP = ip ∧ s.Port = toNatD port) then
      let fp_text :=
        if service_info.Fingerprint ≠ "—" then " -> " ++ service_info.Fingerprint
        else ""
      ({ st with services_data := st.services_data ++ [service_info],
                 service_count := st.service_count + 1 },
       ["  + Service " ++ ip ++ ":" ++ port ++ " (" ++ service ++ ")" ++ fp_text])
    else (st, [])

/-- Python `s.split(sep)` for a single-character separator: every
occurrence splits, empty pieces are kept. -/
def splitCharList (sep : Char) : List Char → List (List Char)
  | [] => [[]]
  | c :: t =>
    let r := splitCharList sep t
    if c = sep then [] :: r
    else
      match r with
      | [] => [[c]]
      | h :: t2 => (c :: h) :: t2

def pySplit (sep : Char) (s : String) : List String :=
  (splitCharList sep s.data).map String.mk

/-!
### Sorting (Python `sorted` is a stable sort; it is modelled by a
stable insertion sort)
-/

/-- Insert `x` after every element `y` with `le y x` (so later-arriving
equal elements stay after earlier ones: stability). -/
def sinsert (le : α → α → Bool) (x : α) : List α → List α
  | [] => [x]
  | y :: t => if le y x then y :: sinsert le x t else x :: y :: t

/-- Python `sorted(l, key=...)` expressed through its comparator: the
stable sort of `l` by `le`. -/
def pySorted (le : α → α → Bool) (l : List α) : List α :=
  l.foldl (fun acc x => sinsert le x acc) []

/-- Python string `<` : lexicographic by code point. -/
def listStrLt : List Char → List Char → Bool
  | [], [] => false
  | [], _ :: _ => true
  | _ :: _, [] => false
  | a :: as, b :: bs => a < b || (a = b && listStrLt as bs)

/-- Python string `<=` (the comparator under ascending `sorted`):
`¬ (b < a)`. -/
def strLeB (a b : String) : Bool := !(listStrLt b.data a.data)

/-- Python tuple comparison for the `(ip, port)` sort keys. -/
def ipPortLeB (a b : String × Nat) : Bool :=
  listStrLt a.1.data b.1.data || (a.1 = b.1 && a.2 ≤ b.2)

/-- Lexicographic `<=` on integer tuples (Python tuple comparison). -/
def natListLe : List Nat → List Nat → Bool
  | [], _ => true
  | _ :: _, [] => false
  | a :: as, b :: bs => a < b || (a = b && natListLe as bs)

/-- Python `tuple(map(int, x.split('.')))` — the numeric sort key for an IP. -/
def ipKey (s : String) : List Nat := (pySplit '.' s).map toNatD

/-- Insertion-ordered multimap append, modelling
`d.setdefault(k, []).append(v)`-style dict building. -/
def upsertAssoc (d : List (String × List String)) (k v : String) :
    List (String × List String) :=
  match d with
  | [] => [(k, [v])]
  | (a, l) :: t => if a = k then (a, l ++ [v]) :: t else (a, l) :: upsertAssoc t k v

def lookupAssoc (d : List (String × List String)) (k : String) : List String :=
  ((d.find? (fun e => e.1 = k)).map (fun e => e.2)).getD []

/-- Insertion-ordered counter, modelling
`d[k] = d.get(k, 0) + 1`. -/
def bumpCount (d : List (String × Nat)) (k : String) : List (String × Nat) :=
  match d with
  | [] => [(k, 1)]
  | (a, n) :: t => if a = k then (a, n + 1) :: t else (a, n) :: bumpCount t k

/-- Python `max(items, key=lambda x: x[1])`: the first item with maximal
count wins ties. Only called on non-empty lists in the source. -/
def maxByCount (d : List (String × Nat)) : String × Nat :=
  match d with
  | [] => ("", 0)
  | x :: t => t.foldl (fun best y => if y.2 > best.2 then y else best) x

/-!
### Summary renderers
-/

def print_phase_header (phase : String) : List String :=
  ["\n" ++ phase, srep '─' phase.length]

def print_host_discovery_summary (st : ParserState) : List String :=
  ["\nHOST DISCOVERY COMPLETE", srep '─' 25,
   "Total hosts found: " ++ toString st.hosts_data.length]
  ++ (if st.hosts_data ≠ [] then
        "\nDiscovered hosts:"
        :: st.hosts_data.map (fun host =>
             "  • " ++ host.IP ++
             (if host.Vendor ≠ "—" then " [" ++ host.Vendor ++ "]" else ""))
        ++ (let vendors :=
              (st.hosts_data.filter (fun h => h.Vendor ≠ "—")).map
                (fun h => h.Vendor)
            if vendors ≠ [] then
              ["\nDevice manufacturers: " ++ toString vendors.dedup.length]
            else [])
      else [])

/-- The `host_ports` dict of `print_port_scanning_summary`: IP → formatted
`port/service` strings, in arrival order. -/
def build_host_ports (ports : List PortRecord) : List (String × List String) :=
  ports.foldl
    (fun acc p => upsertAssoc acc p.IP (toString p.Port ++ "/" ++ p.Service)) []

/-- Python `int(x.split('/')[0])` — the port-entry sort key. -/
def portEntryKey (x : String) : Nat := toNatD ((pySplit '/' x).headD "")

def print_port_scanning_summary (st : ParserState) : List String :=
  ["\nPORT SCANNING COMPLETE", srep '─' 25,
   "Total open ports: " ++ toString st.ports_data.length]
  ++ (if st.ports_data ≠ [] then
        let host_ports := build_host_ports st.ports_data
        "\nOpen ports by host:"
        :: (pySorted strLeB (host_ports.map (fun e => e.1))).map (fun ip =>
             let ports := pySorted
               (fun a b => portEntryKey a ≤ portEntryKey b)
               (lookupAssoc host_ports ip)
             "  • " ++ ip ++ ": " ++ String.intercalate ", " ports)
        ++ ["\nHosts with open ports: " ++ toString host_ports.length ++ "/" ++
            toString st.hosts_data.length]
      else ["\nNo open ports discovered on any hosts"])

def print_service_detection_summary (st : ParserState) : List String :=
  ["\nSERVICE DETECTION COMPLETE", srep '─' 28,
   "Services analyzed: " ++ toString st.services_data.length]
  ++ (if st.services_data ≠ [] then
        let interesting_services :=
          st.services_data.filter (fun s => s.Fingerprint ≠ "—")
        let basic_services :=
          st.services_data.filter (fun s => s.Fingerprint = "—")
        (if interesting_services ≠ [] then
           "\nDetailed fingerprints:"
           :: (pySorted
                 (fun a b => ipPortLeB (a.IP, a.Port) (b.IP, b.Port))
                 interesting_services).map
                (fun s => "  • " ++ s.IP ++ ":" ++ toString s.Port ++ " -> " ++
                          s.Fingerprint)
         else [])
        ++ (if basic_services ≠ [] then
              let basic_summary := basic_services.foldl
                (fun acc s => upsertAssoc acc s.Service (s.IP ++ ":" ++ toString s.Port))
                []
              "\nStandard services:"
              :: (pySorted strLeB (basic_summary.map (fun e => e.1))).map
                   (fun service_name =>
                     let locations := lookupAssoc basic_summary service_name
                     "  • " ++ service_name ++ ": " ++
                     String.intercalate ", " (pySorted strLeB locations))
            else [])
      else ["\nNo detailed service information available"])

/-- Python `{n:02d}`. -/
def fmt2 (n : Nat) : String := if n < 10 then "0" ++ toString n else toString n

/-- The fixed risky-port allow-list of the security assessment. -/
def risky_ports : List Nat := [21, 22, 23, 80, 443, 3389, 5900, 8080, 8443]

/-- Python `len(set(p['IP'] for p in self.ports_data))`. -/
def uniqueHostsWithPorts (st : ParserState) : Nat :=
  ((st.ports_data.map (fun p => p.IP)).dedup).length

/-- The exposure computation of lines 231–233:
`(unique_hosts_with_ports / total_hosts * 100) if total_hosts > 0 else 0`,
in exact rational arithmetic. -/
def exposure_percent (st : ParserState) : ℚ :=
  if st.hosts_data.length > 0 then
    ((uniqueHostsWithPorts st : ℚ) / (st.hosts_data.length : ℚ)) * 100
  else 0

/-- Python `"{:.1f}".format` on the exposure value: one decimal digit.  The
rounding mode at exact ties (Python rounds the nearest binary double)
is not load-bearing for any claim; nearest-with-half-up is used. -/
def fmtPct (q : ℚ) : String :=
  let n : ℤ := ⌊q * 10 + 1 / 2⌋
  toString (n / 10) ++ "." ++ toString (n % 10)

def print_network_tree (st : ParserState) : List String :=
  ["\nNETWORK TREE", srep '─' 15]
  ++ (let network_base :=
        match st.hosts_data with
        | [] => "Unknown Network"
        | first :: _ =>
          String.intercalate "." ((pySplit '.' first.IP).dropLast) ++ ".0/24"
      ["Network: " ++ network_base])
  ++ (match st.hosts_data with
      | [] => ["   └── (no hosts discovered)"]
      | _ =>
        let keys := (st.hosts_data.map (fun h => h.IP)).dedup
        let sorted_hosts := pySorted (fun a b => natListLe (ipKey a) (ipKey b)) keys
        let n := sorted_hosts.length
        (sorted_hosts.enum).flatMap (fun e =>
          let i := e.1
          let ip := e.2
          let info := ((st.hosts_data.reverse.find? (fun h => h.IP = ip)).getD
            { IP := ip, MAC := "—", Vendor := "—" })
          let is_last_host := i = n - 1
          let hostGlyph := if is_last_host then "└──" else "├──"
          let vendor_info :=
            if info.Vendor ≠ "—" then " [" ++ info.Vendor ++ "]" else ""
          let host_ports := st.ports_data.filter (fun p => p.IP = ip)
          let host_services := st.services_data.filter (fun s => s.IP = ip)
          ("   " ++ hostGlyph ++ " " ++ ip ++ vendor_info)
          :: (if host_ports = [] then
                let continuation := if is_last_host then "       " else "   │   "
                [continuation ++ "└── (no open ports)"]
              else
                let sorted_ports := pySorted
                  (fun a b => a.Port ≤ b.Port) host_ports
                let m := sorted_ports.length
                (sorted_ports.enum).flatMap (fun pe =>
                  let j := pe.1
                  let port := pe.2
                  let is_last_port := j = m - 1
                  let continuation := if is_last_host then "       " else "   │   "
                  let portGlyph := if is_last_port then "└──" else "├──"
                  (continuation ++ portGlyph ++ " " ++ toString port.Port ++ "/" ++
                   port.Protocol ++ " (" ++ port.Service ++ ")")
                  :: (match host_services.filter (fun s => s.Port = port.Port) with
                      | [] => []
                      | service :: _ =>
                        if service.Fingerprint ≠ "—" then
                          -- line 357's initial assignment is dead: it is
                          -- always overwritten by the if/else at 358–361
                          let service_continuation :=
                            if is_last_port then
                              (if is_last_host then "           " else "   │       ")
                            else
                              (if ¬ is_last_host then "   │       " else "           ")
                          [service_continuation ++ "└── " ++ service.Fingerprint]
                        else [])))))

def print_final_summary (st : ParserState) (elapsed : Nat) (now : String) :
    List String :=
  ["\n+ SCAN COMPLETED", srep '─' 80,
   "\nSCAN SUMMARY", srep '─' 20,
   "Scan Duration    : " ++ fmt2 (elapsed / 60) ++ "m " ++ fmt2 (elapsed % 60) ++ "s",
   "Hosts Discovered : " ++ toString st.hosts_data.length,
   "Open Ports Found : " ++ toString st.ports_data.length,
   "Services Detected: " ++ toString st.services_data.length]
  ++ (if st.ports_data ≠ [] then
        let found_risky := st.ports_data.filter (fun p => risky_ports.contains p.Port)
        ["\nSECURITY ASSESSMENT", srep '─' 25,
         "Network Exposure : " ++ fmtPct (exposure_percent st) ++ "% (" ++
         toString (uniqueHostsWithPorts st) ++ "/" ++
         toString st.hosts_data.length ++ " hosts)"]
        ++ (if found_risky ≠ [] then
              ("Critical Services: " ++ toString found_risky.length ++ " found")
              :: (pySorted
                    (fun a b => ipPortLeB (a.IP, a.Port) (b.IP, b.Port))
                    found_risky).map
                   (fun p => "   L- " ++ p.IP ++ ":" ++ toString p.Port ++ " (" ++
                             p.Service ++ ")")
            else ["Critical Services: None detected"])
      else [])
  ++ (let interesting_services :=
        st.services_data.filter (fun s => s.Fingerprint ≠ "—")
      if interesting_services ≠ [] then
        ["\nSERVICE FINGERPRINTS", srep '─' 25]
        ++ (pySorted
              (fun a b => ipPortLeB (a.IP, a.Port) (b.IP, b.Port))
              interesting_services).flatMap
             (fun s => ["   " ++ s.IP ++ ":" ++ toString s.Port,
                        "   L- " ++ s.Fingerprint])
      else [])
  ++ (if st.hosts_data.length > 1 then
        let vendors :=
          (st.hosts_data.filter (fun h => h.Vendor ≠ "—")).map (fun h => h.Vendor)
        ["\nNETWORK TOPOLOGY", srep '─' 20,
         "Device Vendors   : " ++ toString vendors.dedup.length ++
         " different manufacturers"]
        ++ (if st.ports_data ≠ [] then
              let common_services :=
                st.ports_data.foldl (fun acc p => bumpCount acc p.Service) []
              if common_services ≠ [] then
                let top_service := maxByCount common_services
                ["Common Services  : " ++ top_service.1 ++ " (" ++
                 toString top_service.2 ++ " instances)"]
              else []
            else [])
      else [])
  ++ ["\n" ++ srep '─' 80, "Report generated at " ++ now, srep '─' 80]
  ++ print_network_tree st
  ++ [""]

/-!
### Host transition, line dispatcher, driver
-/

def handle_host_transition (st : ParserState) : List String :=
  if truthyHost st.current_host ∧ ¬ st.current_host_has_ports ∧
     st.current_phase = "PORT_SCANNING" then
    ["  (no open ports)"]
  else []

/-- The dispatcher `process_line`.  `tm = (elapsed, now)` stands for the wall-clock reads
performed when the completion marker triggers the final summary.  The
`try/except Exception: pass` around the phase dispatch is represented by
the row parsers being total functions. -/
def process_line (tm : Nat × String) (st : ParserState) (line : String) :
    ParserState × List String :=
  if pyStrip line = "" then (st, [])
  else if strContainsSub line "=== HOST DISCOVERY ===" then
    ({ st with current_phase := "HOST_DISCOVERY" },
     print_phase_header "HOST DISCOVERY")
  else if strContainsSub line "=== PORT SCANNING ===" then
    let st' := { st with current_phase := "PORT_SCANNING" }
    (st', print_host_discovery_summary st' ++ print_phase_header "PORT SCANNING")
  else if strContainsSub line "=== SERVICE DETECTION ===" then
    let transition_out := handle_host_transition st
    let st' := { st with current_phase := "SERVICE_DETECTION",
                         total_services := st.ports_data.length,
                         service_count := 0 }
    (st', transition_out ++ print_port_scanning_summary st' ++
          print_phase_header "SERVICE DETECTION")
  else if strContainsSub line "Scan complete!" then
    let st' := { st with current_phase := "COMPLETE" }
    (st', print_service_detection_summary st' ++
          print_final_summary st' tm.1 tm.2)
  else
    match searchHostScan line with
    | some ip =>
      let transition_out := handle_host_transition st
      ({ st with current_host := some ip, current_host_has_ports := false },
       transition_out ++ ["\n-> Scanning " ++ ip ++ "..."])
    | none =>
      match searchServicePort line with
      | some (ip, port) =>
        (st, ["\n-> Analyzing " ++ ip ++ ":" ++ port ++ "..."])
      | none =>
        match searchServiceCount line with
        | some count =>
          ({ st with total_services := toNatD count }, [])
        | none =>
          if st.current_phase = "HOST_DISCOVERY" then
            parse_host_discovery st line
          else if st.current_phase = "PORT_SCANNING" then
            parse_port_scanning st line
          else if st.current_phase = "SERVICE_DETECTION" then
            parse_service_detection st line
          else (st, [])

def print_header (start : String) : List String :=
  [srep '─' 80, "NETWORK SECURITY ASSESSMENT", "Started: " ++ start, srep '─' 80]

/-- The stdin loop of `main`: each line is `rstrip`-ed and processed;
states and outputs accumulate left to right. -/
def runLines (tm : Nat × String) (st : ParserState) (lines : List String) :
    ParserState × List String :=
  lines.foldl
    (fun acc line =>
      let r := process_line tm acc.1 (pyRstrip line)
      (r.1, acc.2 ++ r.2))
    (st, [])

/-- The end-of-input branch of `main` (lines 441–452): interruption notice,
then the phase-conditional partial summaries, then always the final
summary (which itself ends with the network tree). -/
def interruption_eof (tm : Nat × String) (st : ParserState) : List String :=
  "\n! Scan interrupted - showing partial results"
  :: ((if st.current_phase = "PORT_SCANNING" ∧ st.hosts_data ≠ [] then
         print_host_discovery_summary st
       else if st.current_phase = "SERVICE_DETECTION" then
         (if st.hosts_data ≠ [] then print_host_discovery_summary st else [])
         ++ (if st.ports_data ≠ [] then print_port_scanning_summary st else [])
       else [])
      ++ print_final_summary st tm.1 tm.2)

/-- The `KeyboardInterrupt` branch of `main` (lines 454–457): a different
notice, and the final summary only when some collection is non-empty. -/
def interruption_cancel (tm : Nat × String) (st : ParserState) : List String :=
  "\n! Scan interrupted by user"
  :: (if st.hosts_data ≠ [] ∨ st.ports_data ≠ [] ∨ st.services_data ≠ [] then
        print_final_summary st tm.1 tm.2
      else [])

/-- Function `main` when the input stream ends normally after `lines`. -/
def main_eof (start : String) (tm : Nat × String) (lines : List String) :
    List String :=
  let r := runLines tm initState lines
  print_header start ++ r.2 ++
  (if r.1.current_phase ≠ "COMPLETE" then interruption_eof tm r.1 else [])

/-- Function `main` when a user cancellation arrives after `lines` have been
processed. -/
def main_cancel (start : String) (tm : Nat × String) (lines : List String) :
    List String :=
  let r := runLines tm initState lines
  print_header start ++ r.2 ++ interruption_cancel tm r.1

/-- The state component of `runLines` is a plain fold of `process_line`. -/
def runState (tm : Nat × String) (st : ParserState) (lines : List String) :
    ParserState :=
  lines.foldl (fun s l => (process_line tm s (pyRstrip l)).1) st

/-!
### Accumulator evolution across one processed line
-/

/-- How one processed line can change the three collections: each is
either untouched or extended by exactly one record whose dedup key is
fresh (and port records are only ever appended with state `"open"`). -/
def Accum (st st' : ParserState) : Prop :=
  (st'.hosts_data = st.hosts_data ∨
   ∃ r, st'.hosts_data = st.hosts_data ++ [r] ∧
        st.hosts_data.any (fun h => h.IP = r.IP) = false) ∧
  (st'.ports_data = st.ports_data ∨
   ∃ r, st'.ports_data = st.ports_data ++ [r] ∧
        st.ports_data.any (fun p => p.IP = r.IP ∧ p.Port = r.Port) = false ∧
        r.State = "open") ∧
  (st'.services_data = st.services_data ∨
   ∃ r, st'.services_data = st.services_data ++ [r] ∧
        st.services_data.any (fun s => s.IP = r.IP ∧ s.Port = r.Port) = false)

/-!
### Dedup-key uniqueness invariant
-/

/-- Each collection holds at most one record per dedup key
(IP for hosts, (IP, Port) for ports and services). -/
def KeysOk (st : ParserState) : Prop :=
  (st.hosts_data.map (fun h => h.IP)).Nodup ∧
  (st.ports_data.map (fun p => (p.IP, p.Port))).Nodup ∧
  (st.services_data.map (fun s => (s.IP, s.Port))).Nodup

/-!
### Line classification helpers
-/

/-- The line matches none of the classifier shapes 1–4 of `process_line`
(phase markers, `Scanning`/`Port` announcements, service count): it falls
through to the phase-specific row parser. -/
def plainLine (line : String) : Prop :=
  strContainsSub line "=== HOST DISCOVERY ===" = false ∧
  strContainsSub line "=== PORT SCANNING ===" = false ∧
  strContainsSub line "=== SERVICE DETECTION ===" = false ∧
  strContainsSub line "Scan complete!" = false ∧
  searchHostScan line = none ∧
  searchServicePort line = none ∧
  searchServiceCount line = none

/-!
### Phase evolution
-/

/-- The phase that a line sets, read off the line alone: the first phase
marker it contains, in the precedence order of `process_line` (a blank
line is never classified). -/
def markerPhase? (line : String) : Option String :=
  if pyStrip line = "" then none
  else if strContainsSub line "=== HOST DISCOVERY ===" = true then
    some "HOST_DISCOVERY"
  else if strContainsSub line "=== PORT SCANNING ===" = true then
    some "PORT_SCANNING"
  else if strContainsSub line "=== SERVICE DETECTION ===" = true then
    some "SERVICE_DETECTION"
  else if strContainsSub line "Scan complete!" = true then some "COMPLETE"
  else none

/-- Position of a phase name in the forward sequence
STARTING → HOST_DISCOVERY → PORT_SCANNING → SERVICE_DETECTION → COMPLETE. -/
def phaseIdx (p : String) : Nat :=
  if p = "HOST_DISCOVERY" then 1
  else if p = "PORT_SCANNING" then 2
  else if p = "SERVICE_DETECTION" then 3
  else if p = "COMPLETE" then 4
  else 0

/-- The successive values of `current_phase` along a processed stream
(starting value included). -/
def phaseTrace (tm : Nat × String) (st : ParserState) :
    List String → List String
  | [] => [st.current_phase]
  | l :: ls =>
    st.current_phase :: phaseTrace tm (process_line tm st (pyRstrip l)).1 ls

/-!
### Sample records and states used in witnesses and counterexamples
-/

def hostA : HostRecord := { IP := "10.0.0.1", MAC := "—", Vendor := "Acme" }

def hostB : HostRecord := { IP := "10.0.0.2", MAC := "—", Vendor := "—" }

def portA : PortRecord :=
  { IP := "10.0.0.1", Port := 22, Protocol := "tcp", State := "open",
    Service := "ssh" }

/-- Two hosts discovered, one of them with one open port. -/
def stTwoHosts : ParserState :=
  { initState with hosts_data := [hostA, hostB], ports_data := [portA] }

/-!
### Claims
-/

/-- Which situation makes a line a duplicate of an already collected
record: the current phase dispatches it to a row parser, the row matches,
and its dedup key is already present in the corresponding collection. -/
def dupRow (st : ParserState) (line : String) : Prop :=
  (st.current_phase = "HOST_DISCOVERY" ∧
   ∃ ip mac vendor, matchHostRow line = some (ip, mac, vendor) ∧
     st.hosts_data.any (fun h => h.IP = ip) = true) ∨
  (st.current_phase = "PORT_SCANNING" ∧
   ∃ ip port proto state svc,
     matchPortRow line = some (ip, port, proto, state, svc) ∧
     st.ports_data.any (fun p => p.IP = ip ∧ p.Port = toNatD port) = true) ∨
  (st.current_phase = "SERVICE_DETECTION" ∧
   ∃ ip port proto state svc fp,
     matchServiceRow line = some (ip, port, proto, state, svc, fp) ∧
     st.services_data.any (fun s => s.IP = ip ∧ s.Port = toNatD port) = true)

/-- State in which host 1.2.3.4 has already been discovered, during
HOST_DISCOVERY. -/
def stDup : ParserState :=
  { initState with current_phase := "HOST_DISCOVERY",
                   hosts_data := [{ IP := "1.2.3.4", MAC := "—",
                                    Vendor := "Acme" }] }

/-- The stream refuting the 0–65535 port bound: the `(\d+)` group of
`port_pattern` accepts arbitrarily long digit runs. -/
def linesC6 : List String :=
  ["=== PORT SCANNING ===", "1.2.3.4 99999 tcp open r ssh"]

/-- 12-character prefixes of the newline-initial lines of the Host
Discovery summary. -/
def nlPrefixesHD : List (List Char) :=
  ["\nHOST DISCOV".data, "\nDiscovered ".data, "\nDevice manu".data]

/-- 12-character prefixes of the newline-initial lines of the Port
Scanning summary. -/
def nlPrefixesPS : List (List Char) :=
  ["\nPORT SCANNI".data, "\nOpen ports ".data, "\nHosts with ".data,
   "\nNo open por".data]

/-- 12-character prefixes of the newline-initial lines of the Final
Summary (network tree included). -/
def nlPrefixesFS : List (List Char) :=
  ["\n+ SCAN COMP".data, "\nSCAN SUMMAR".data, "\nSECURITY AS".data,
   "\nSERVICE FIN".data, "\nNETWORK TOP".data, "\n───────────".data,
   "\nNETWORK TRE".data]

/-!
### C1: the interruption handler
-/

/-- A stream that ends right after the PORT SCANNING marker, with one
host discovered. -/
def linesC1 : List String :=
  ["=== HOST DISCOVERY ===", "1.2.3.4 None Acme", "=== PORT SCANNING ==="]

def stC1 : ParserState := runState (0, "T") initState linesC1

/-!
### C7: the "(no open ports)" notice
-/

/-- The state reached after announcing host 10.0.0.1 and then collecting
an open port of a different host (10.0.0.2). -/
def stC7 : ParserState :=
  runState (0, "T") initState
    ["=== PORT SCANNING ===", "Scanning 10.0.0.1",
     "10.0.0.2 22 tcp open r ssh"]

/-- The order in which the Final Summary lists the risky open ports:
`sorted(found_risky, key=(IP, Port))`. -/
def riskyOrder (st : ParserState) : List PortRecord :=
  pySorted (fun a b => ipPortLeB (a.IP, a.Port) (b.IP, b.Port))
    (st.ports_data.filter (fun p => risky_ports.contains p.Port))

/-- State with a host discovered and no open port: the Final Summary's
security-assessment block (exposure line included) is absent. -/
def stC2 : ParserState := { initState with hosts_data := [hostA] }

/-- The order in which `print_port_scanning_summary` lists the hosts:
Python `sorted(host_ports.keys())` — plain string sort. -/
def portSummaryHostOrder (st : ParserState) : List String :=
  pySorted strLeB ((build_host_ports st.ports_data).map (fun e => e.1))

/-- The order in which a host's port entries are listed in the Port
Scanning summary. -/
def portSummaryPortEntries (st : ParserState) (ip : String) : List String :=
  pySorted (fun a b => portEntryKey a ≤ portEntryKey b)
    (lookupAssoc (build_host_ports st.ports_data) ip)

/-- The order in which `print_network_tree` lists the hosts:
`sorted(keys, key=numeric octet tuple)`. -/
def treeHostOrder (st : ParserState) : List String :=
  pySorted (fun a b => natListLe (ipKey a) (ipKey b))
    ((st.hosts_data.map (fun h => h.IP)).dedup)

/-- Accumulator state showing the difference between string and numeric
IP ordering (`"192.168.1.10" < "192.168.1.9"` as strings). -/
def stC3 : ParserState :=
  { initState with
    hosts_data := [{ IP := "192.168.1.9", MAC := "—", Vendor := "—" },
                   { IP := "192.168.1.10", MAC := "—", Vendor := "—" }],
    ports_data := [{ IP := "192.168.1.9", Port := 80, Protocol := "tcp",
                     State := "open", Service := "http" },
                   { IP := "192.168.1.10", Port := 22, Protocol := "tcp",
                     State := "open", Service := "ssh" }] }

/-- The stream refuting forward-only phases: a later `HOST DISCOVERY`
marker moves the phase backwards. -/
def linesC8 : List String :=
  ["=== PORT SCANNING ===", "=== HOST DISCOVERY ==="]

/-!
### Generic helper lemmas
-/

theorem ne_of_head? {s t : String} {a b : Char} (hs : s.data.head? = some a)
    (ht : t.data.head? = some b) (hab : a ≠ b) : s ≠ t := by
  intro he
  rw [he, ht] at hs
  exact hab (Option.some.inj hs).symm

theorem ne_of_take {s t : String} {k : Nat} {ls lt : List Char}
    (hs : s.data.take k = ls) (ht : t.data.take k = lt) (h : ls ≠ lt) :
    s ≠ t := by
  intro he
  rw [he, ht] at hs
  exact h hs.symm

theorem runLines_foldl (tm : Nat × String) (st : ParserState)
    (out : List String) (lines : List String) :
    (lines.foldl
      (fun acc line =>
        let r := process_line tm acc.1 (pyRstrip line)
        (r.1, acc.2 ++ r.2))
      (st, out)).1 = runState tm st lines := by
  induction lines generalizing st out with
  | nil => rfl
  | cons l ls ih => exact ih _ _

theorem runLines_fst (tm : Nat × String) (st : ParserState)
    (lines : List String) :
    (runLines tm st lines).1 = runState tm st lines :=
  runLines_foldl tm st [] lines

/-!
### Effect characterization of the row parsers
-/

theorem parse_host_discovery_cases (st : ParserState) (line : String) :
    parse_host_discovery st line = (st, []) ∨
    ∃ r : HostRecord,
      (parse_host_discovery st line).1 =
        { st with hosts_data := st.hosts_data ++ [r] } ∧
      (parse_host_discovery st line).2 ≠ [] ∧
      st.hosts_data.any (fun h => h.IP = r.IP) = false := by
  unfold parse_host_discovery
  cases hm : matchHostRow line with
  | none => exact Or.inl rfl
  | some g =>
    obtain ⟨ip, mac, vendor⟩ := g
    dsimp only
    by_cases hd : st.hosts_data.any (fun host => host.IP = ip) = true
    · left
      rw [if_pos hd]
    · right
      rw [Bool.not_eq_true] at hd
      rw [if_neg (by simp only [hd]; exact Bool.false_ne_true)]
      exact ⟨{ IP := ip,
               MAC := if mac ≠ "None" then mac else "—",
               Vendor := if pyStrip vendor ≠ "" ∧ pyStrip vendor ≠ "None" then
                           pyStrip vendor
                         else "—" }, rfl, by simp, hd⟩

theorem parse_port_scanning_cases (st : ParserState) (line : String) :
    parse_port_scanning st line = (st, []) ∨
    ∃ r : PortRecord,
      (parse_port_scanning st line).1 =
        { st with ports_data := st.ports_data ++ [r],
                  current_host_has_ports := true } ∧
      (parse_port_scanning st line).2 ≠ [] ∧
      st.ports_data.any (fun p => p.IP = r.IP ∧ p.Port = r.Port) = false ∧
      r.State = "open" := by
  unfold parse_port_scanning
  cases hm : matchPortRow line with
  | none => exact Or.inl rfl
  | some g =>
    obtain ⟨ip, port, proto, state, svc⟩ := g
    dsimp only
    by_cases hs : state = "open"
    · subst hs
      by_cases hd :
        st.ports_data.any (fun p => p.IP = ip ∧ p.Port = toNatD port) = true
      · left
        rw [if_pos rfl, if_neg (not_not_intro hd)]
      · right
        rw [Bool.not_eq_true] at hd
        rw [if_pos rfl, if_pos (by simpa using hd)]
        exact ⟨{ IP := ip, Port := toNatD port, Protocol := proto,
                 State := "open", Service := svc }, rfl, by simp, hd, rfl⟩
    · left
      rw [if_neg hs]

theorem parse_service_detection_cases (st : ParserState) (line : String) :
    parse_service_detection st line = (st, []) ∨
    ∃ r : ServiceRecord,
      (parse_service_detection st line).1 =
        { st with services_data := st.services_data ++ [r],
                  service_count := st.service_count + 1 } ∧
      (parse_service_detection st line).2 ≠ [] ∧
      st.services_data.any (fun s => s.IP = r.IP ∧ s.Port = r.Port) = false := by
  unfold parse_service_detection
  cases hm : matchServiceRow line with
  | none => exact Or.inl rfl
  | some g =>
    obtain ⟨ip, port, proto, state, svc, fp⟩ := g
    dsimp only
    by_cases hd :
      st.services_data.any (fun s => s.IP = ip ∧ s.Port = toNatD port) = true
    · left
      rw [if_neg (not_not_intro hd)]
    · right
      rw [Bool.not_eq_true] at hd
      rw [if_pos (by simpa using hd)]
      exact ⟨{ IP := ip, Port := toNatD port, Protocol := proto,
               State := state, Service := svc,
               Fingerprint := if pyStrip fp ≠ "" then pyStrip fp else "—" },
             rfl, by simp, hd⟩

/-- A duplicate host row (its IP already collected) is a silent no-op. -/
theorem parse_host_discovery_dup (st : ParserState) (line : String)
    (ip mac vendor : String)
    (hm : matchHostRow line = some (ip, mac, vendor))
    (hd : st.hosts_data.any (fun h => h.IP = ip) = true) :
    parse_host_discovery st line = (st, []) := by
  unfold parse_host_discovery
  rw [hm]
  dsimp only
  rw [if_pos hd]

/-- A duplicate port row (its (IP, Port) already collected) is a silent
no-op, whatever its state token. -/
theorem parse_port_scanning_dup (st : ParserState) (line : String)
    (ip port proto state svc : String)
    (hm : matchPortRow line = some (ip, port, proto, state, svc))
    (hd : st.ports_data.any
      (fun p => p.IP = ip ∧ p.Port = toNatD port) = true) :
    parse_port_scanning st line = (st, []) := by
  unfold parse_port_scanning
  rw [hm]
  dsimp only
  by_cases hs : state = "open"
  · rw [if_pos hs, if_neg (not_not_intro hd)]
  · rw [if_neg hs]

/-- A duplicate service row (its (IP, Port) already collected) is a silent
no-op. -/
theorem parse_service_detection_dup (st : ParserState) (line : String)
    (ip port proto state svc fp : String)
    (hm : matchServiceRow line = some (ip, port, proto, state, svc, fp))
    (hd : st.services_data.any
      (fun s => s.IP = ip ∧ s.Port = toNatD port) = true) :
    parse_service_detection st line = (st, []) := by
  unfold parse_service_detection
  rw [hm]
  dsimp only
  rw [if_neg (not_not_intro hd)]

theorem parse_host_discovery_misc (st : ParserState) (line : String) :
    (parse_host_discovery st line).1.ports_data = st.ports_data ∧
    (parse_host_discovery st line).1.services_data = st.services_data ∧
    (parse_host_discovery st line).1.current_phase = st.current_phase ∧
    (parse_host_discovery st line).1.current_host = st.current_host ∧
    (parse_host_discovery st line).1.current_host_has_ports =
      st.current_host_has_ports := by
  rcases parse_host_discovery_cases st line with h | ⟨r, h1, -, -⟩
  · rw [h]
    exact ⟨rfl, rfl, rfl, rfl, rfl⟩
  · rw [h1]
    exact ⟨rfl, rfl, rfl, rfl, rfl⟩

theorem parse_port_scanning_misc (st : ParserState) (line : String) :
    (parse_port_scanning st line).1.hosts_data = st.hosts_data ∧
    (parse_port_scanning st line).1.services_data = st.services_data ∧
    (parse_port_scanning st line).1.current_phase = st.current_phase ∧
    (parse_port_scanning st line).1.current_host = st.current_host := by
  rcases parse_port_scanning_cases st line with h | ⟨r, h1, -, -, -⟩
  · rw [h]
    exact ⟨rfl, rfl, rfl, rfl⟩
  · rw [h1]
    exact ⟨rfl, rfl, rfl, rfl⟩

/-- The has-ports flag after a port row: either the whole call was a
no-op, or the flag is set (and then a record was appended). -/
theorem parse_port_scanning_flag (st : ParserState) (line : String) :
    parse_port_scanning st line = (st, []) ∨
    ((parse_port_scanning st line).1.current_host_has_ports = true ∧
     (parse_port_scanning st line).1.ports_data ≠ st.ports_data) := by
  rcases parse_port_scanning_cases st line with h | ⟨r, h1, -, -, -⟩
  · exact Or.inl h
  · right
    rw [h1]
    refine ⟨rfl, ?_⟩
    simp

theorem parse_service_detection_misc (st : ParserState) (line : String) :
    (parse_service_detection st line).1.hosts_data = st.hosts_data ∧
    (parse_service_detection st line).1.ports_data = st.ports_data ∧
    (parse_service_detection st line).1.current_phase = st.current_phase ∧
    (parse_service_detection st line).1.current_host = st.current_host ∧
    (parse_service_detection st line).1.current_host_has_ports =
      st.current_host_has_ports := by
  rcases parse_service_detection_cases st line with h | ⟨r, h1, -, -⟩
  · rw [h]
    exact ⟨rfl, rfl, rfl, rfl, rfl⟩
  · rw [h1]
    exact ⟨rfl, rfl, rfl, rfl, rfl⟩

theorem accum_refl (st : ParserState) : Accum st st :=
  ⟨Or.inl rfl, Or.inl rfl, Or.inl rfl⟩

theorem process_line_step (tm : Nat × String) (st : ParserState)
    (line : String) : Accum st (process_line tm st line).1 := by
  unfold process_line
  split
  · exact accum_refl st
  split
  · exact ⟨Or.inl rfl, Or.inl rfl, Or.inl rfl⟩
  split
  · exact ⟨Or.inl rfl, Or.inl rfl, Or.inl rfl⟩
  split
  · exact ⟨Or.inl rfl, Or.inl rfl, Or.inl rfl⟩
  split
  · exact ⟨Or.inl rfl, Or.inl rfl, Or.inl rfl⟩
  split
  · exact ⟨Or.inl rfl, Or.inl rfl, Or.inl rfl⟩
  split
  · exact ⟨Or.inl rfl, Or.inl rfl, Or.inl rfl⟩
  split
  · exact ⟨Or.inl rfl, Or.inl rfl, Or.inl rfl⟩
  split
  · -- HOST_DISCOVERY dispatch
    rcases parse_host_discovery_cases st line with h | ⟨r, h1, -, hf⟩
    · rw [h]
      exact accum_refl st
    · exact ⟨Or.inr ⟨r, by rw [h1], hf⟩, Or.inl (by rw [h1]),
             Or.inl (by rw [h1])⟩
  split
  · -- PORT_SCANNING dispatch
    rcases parse_port_scanning_cases st line with h | ⟨r, h1, -, hf, hop⟩
    · rw [h]
      exact accum_refl st
    · exact ⟨Or.inl (by rw [h1]), Or.inr ⟨r, by rw [h1], hf, hop⟩,
             Or.inl (by rw [h1])⟩
  split
  · -- SERVICE_DETECTION dispatch
    rcases parse_service_detection_cases st line with h | ⟨r, h1, -, hf⟩
    · rw [h]
      exact accum_refl st
    · exact ⟨Or.inl (by rw [h1]), Or.inl (by rw [h1]),
             Or.inr ⟨r, by rw [h1], hf⟩⟩
  · exact accum_refl st

theorem accum_keysOk {st st' : ParserState} (ha : Accum st st')
    (h : KeysOk st) : KeysOk st' := by
  obtain ⟨hah, hap, has⟩ := ha
  obtain ⟨hh, hp, hs⟩ := h
  refine ⟨?_, ?_, ?_⟩
  · rcases hah with he | ⟨r, he, hf⟩
    · rw [he]; exact hh
    · rw [he, List.map_append]
      rw [List.any_eq_false] at hf
      refine List.Nodup.append hh (List.nodup_singleton _) ?_
      intro x hx hx'
      simp only [List.map_cons, List.map_nil, List.mem_singleton] at hx'
      subst hx'
      obtain ⟨hrec, hmem, hkey⟩ := List.mem_map.mp hx
      exact hf hrec hmem (by simpa using hkey)
  · rcases hap with he | ⟨r, he, hf, -⟩
    · rw [he]; exact hp
    · rw [he, List.map_append]
      rw [List.any_eq_false] at hf
      refine List.Nodup.append hp (List.nodup_singleton _) ?_
      intro x hx hx'
      simp only [List.map_cons, List.map_nil, List.mem_singleton] at hx'
      subst hx'
      obtain ⟨hrec, hmem, hkey⟩ := List.mem_map.mp hx
      refine hf hrec hmem ?_
      simp only [Prod.mk.injEq] at hkey
      simpa using hkey
  · rcases has with he | ⟨r, he, hf⟩
    · rw [he]; exact hs
    · rw [he, List.map_append]
      rw [List.any_eq_false] at hf
      refine List.Nodup.append hs (List.nodup_singleton _) ?_
      intro x hx hx'
      simp only [List.map_cons, List.map_nil, List.mem_singleton] at hx'
      subst hx'
      obtain ⟨hrec, hmem, hkey⟩ := List.mem_map.mp hx
      refine hf hrec hmem ?_
      simp only [Prod.mk.injEq] at hkey
      simpa using hkey

theorem runState_keysOk (tm : Nat × String) (st : ParserState)
    (lines : List String) (h : KeysOk st) : KeysOk (runState tm st lines) := by
  induction lines generalizing st with
  | nil => exact h
  | cons l ls ih =>
    exact ih _ (accum_keysOk (process_line_step tm st (pyRstrip l)) h)

/-- Records already collected survive the processing of any further
line (append-only collections, first occurrence preserved). -/
theorem process_line_mem_preserved (tm : Nat × String) (st : ParserState)
    (line : String) :
    (∀ r ∈ st.hosts_data, r ∈ (process_line tm st line).1.hosts_data) ∧
    (∀ r ∈ st.ports_data, r ∈ (process_line tm st line).1.ports_data) ∧
    (∀ r ∈ st.services_data, r ∈ (process_line tm st line).1.services_data) := by
  obtain ⟨hah, hap, has⟩ := process_line_step tm st line
  refine ⟨fun r hr => ?_, fun r hr => ?_, fun r hr => ?_⟩
  · rcases hah with he | ⟨r', he, -⟩ <;> rw [he]
    · exact hr
    · exact List.mem_append_left _ hr
  · rcases hap with he | ⟨r', he, -, -⟩ <;> rw [he]
    · exact hr
    · exact List.mem_append_left _ hr
  · rcases has with he | ⟨r', he, -⟩ <;> rw [he]
    · exact hr
    · exact List.mem_append_left _ hr

theorem process_line_dispatch (tm : Nat × String) (st : ParserState)
    (line : String) (h0 : ¬ pyStrip line = "") (hp : plainLine line) :
    process_line tm st line =
      (if st.current_phase = "HOST_DISCOVERY" then parse_host_discovery st line
       else if st.current_phase = "PORT_SCANNING" then
         parse_port_scanning st line
       else if st.current_phase = "SERVICE_DETECTION" then
         parse_service_detection st line
       else (st, [])) := by
  obtain ⟨h1, h2, h3, h4, h5, h6, h7⟩ := hp
  unfold process_line
  rw [if_neg h0, if_neg (by simp [h1]), if_neg (by simp [h2]),
      if_neg (by simp [h3]), if_neg (by simp [h4]), h5, h6, h7]

theorem process_line_blank (tm : Nat × String) (st : ParserState)
    (line : String) (h0 : pyStrip line = "") :
    process_line tm st line = (st, []) := by
  unfold process_line
  rw [if_pos h0]

theorem process_line_hd_marker (tm : Nat × String) (st : ParserState)
    (line : String) (h0 : ¬ pyStrip line = "")
    (h1 : strContainsSub line "=== HOST DISCOVERY ===" = true) :
    process_line tm st line =
      ({ st with current_phase := "HOST_DISCOVERY" },
       print_phase_header "HOST DISCOVERY") := by
  unfold process_line
  rw [if_neg h0, if_pos h1]

theorem process_line_ps_marker (tm : Nat × String) (st : ParserState)
    (line : String) (h0 : ¬ pyStrip line = "")
    (h1 : strContainsSub line "=== HOST DISCOVERY ===" = false)
    (h2 : strContainsSub line "=== PORT SCANNING ===" = true) :
    process_line tm st line =
      ({ st with current_phase := "PORT_SCANNING" },
       print_host_discovery_summary { st with current_phase := "PORT_SCANNING" }
       ++ print_phase_header "PORT SCANNING") := by
  unfold process_line
  rw [if_neg h0, if_neg (by simp [h1]), if_pos h2]

theorem process_line_sd_marker (tm : Nat × String) (st : ParserState)
    (line : String) (h0 : ¬ pyStrip line = "")
    (h1 : strContainsSub line "=== HOST DISCOVERY ===" = false)
    (h2 : strContainsSub line "=== PORT SCANNING ===" = false)
    (h3 : strContainsSub line "=== SERVICE DETECTION ===" = true) :
    process_line tm st line =
      ({ st with current_phase := "SERVICE_DETECTION",
                 total_services := st.ports_data.length,
                 service_count := 0 },
       handle_host_transition st
       ++ print_port_scanning_summary
            { st with current_phase := "SERVICE_DETECTION",
                      total_services := st.ports_data.length,
                      service_count := 0 }
       ++ print_phase_header "SERVICE DETECTION") := by
  unfold process_line
  rw [if_neg h0, if_neg (by simp [h1]), if_neg (by simp [h2]), if_pos h3]

theorem process_line_complete_marker (tm : Nat × String) (st : ParserState)
    (line : String) (h0 : ¬ pyStrip line = "")
    (h1 : strContainsSub line "=== HOST DISCOVERY ===" = false)
    (h2 : strContainsSub line "=== PORT SCANNING ===" = false)
    (h3 : strContainsSub line "=== SERVICE DETECTION ===" = false)
    (h4 : strContainsSub line "Scan complete!" = true) :
    process_line tm st line =
      ({ st with current_phase := "COMPLETE" },
       print_service_detection_summary { st with current_phase := "COMPLETE" }
       ++ print_final_summary { st with current_phase := "COMPLETE" } tm.1 tm.2) := by
  unfold process_line
  rw [if_neg h0, if_neg (by simp [h1]), if_neg (by simp [h2]),
      if_neg (by simp [h3]), if_pos h4]

theorem process_line_scanning (tm : Nat × String) (st : ParserState)
    (line ip : String) (h0 : ¬ pyStrip line = "")
    (h1 : strContainsSub line "=== HOST DISCOVERY ===" = false)
    (h2 : strContainsSub line "=== PORT SCANNING ===" = false)
    (h3 : strContainsSub line "=== SERVICE DETECTION ===" = false)
    (h4 : strContainsSub line "Scan complete!" = false)
    (h5 : searchHostScan line = some ip) :
    process_line tm st line =
      ({ st with current_host := some ip, current_host_has_ports := false },
       handle_host_transition st ++ ["\n-> Scanning " ++ ip ++ "..."]) := by
  unfold process_line
  rw [if_neg h0, if_neg (by simp [h1]), if_neg (by simp [h2]),
      if_neg (by simp [h3]), if_neg (by simp [h4]), h5]

/-- A marker line sets the phase to exactly the phase of its marker,
whatever the previous phase was. -/
theorem process_line_phase_marker (tm : Nat × String) (st : ParserState)
    (line p : String) (hm : markerPhase? line = some p) :
    (process_line tm st line).1.current_phase = p := by
  unfold markerPhase? at hm
  by_cases h0 : pyStrip line = ""
  · rw [if_pos h0] at hm
    exact absurd hm (by simp)
  rw [if_neg h0] at hm
  by_cases h1 : strContainsSub line "=== HOST DISCOVERY ===" = true
  · rw [if_pos h1] at hm
    rw [process_line_hd_marker tm st line h0 h1]
    exact (Option.some.inj hm)
  rw [if_neg h1] at hm
  rw [Bool.not_eq_true] at h1
  by_cases h2 : strContainsSub line "=== PORT SCANNING ===" = true
  · rw [if_pos h2] at hm
    rw [process_line_ps_marker tm st line h0 h1 h2]
    exact (Option.some.inj hm)
  rw [if_neg h2] at hm
  rw [Bool.not_eq_true] at h2
  by_cases h3 : strContainsSub line "=== SERVICE DETECTION ===" = true
  · rw [if_pos h3] at hm
    rw [process_line_sd_marker tm st line h0 h1 h2 h3]
    exact (Option.some.inj hm)
  rw [if_neg h3] at hm
  rw [Bool.not_eq_true] at h3
  by_cases h4 : strContainsSub line "Scan complete!" = true
  · rw [if_pos h4] at hm
    rw [process_line_complete_marker tm st line h0 h1 h2 h3 h4]
    exact (Option.some.inj hm)
  rw [if_neg h4] at hm
  exact absurd hm (by simp)

/-- A line carrying no phase marker leaves the phase untouched. -/
theorem process_line_phase_none (tm : Nat × String) (st : ParserState)
    (line : String) (hm : markerPhase? line = none) :
    (process_line tm st line).1.current_phase = st.current_phase := by
  unfold markerPhase? at hm
  by_cases h0 : pyStrip line = ""
  · rw [process_line_blank tm st line h0]
  rw [if_neg h0] at hm
  by_cases h1 : strContainsSub line "=== HOST DISCOVERY ===" = true
  · rw [if_pos h1] at hm
    exact absurd hm (by simp)
  rw [if_neg h1] at hm
  rw [Bool.not_eq_true] at h1
  by_cases h2 : strContainsSub line "=== PORT SCANNING ===" = true
  · rw [if_pos h2] at hm
    exact absurd hm (by simp)
  rw [if_neg h2] at hm
  rw [Bool.not_eq_true] at h2
  by_cases h3 : strContainsSub line "=== SERVICE DETECTION ===" = true
  · rw [if_pos h3] at hm
    exact absurd hm (by simp)
  rw [if_neg h3] at hm
  rw [Bool.not_eq_true] at h3
  by_cases h4 : strContainsSub line "Scan complete!" = true
  · rw [if_pos h4] at hm
    exact absurd hm (by simp)
  rw [Bool.not_eq_true] at h4
  unfold process_line
  rw [if_neg h0, if_neg (by simp [h1]), if_neg (by simp [h2]),
      if_neg (by simp [h3]), if_neg (by simp [h4])]
  cases hhs : searchHostScan line with
  | some ip => rfl
  | none =>
    cases hsp : searchServicePort line with
    | some pr =>
      obtain ⟨ip, port⟩ := pr
      rfl
    | none =>
      cases hsc : searchServiceCount line with
      | some c => rfl
      | none =>
        by_cases p1 : st.current_phase = "HOST_DISCOVERY"
        · rw [if_pos p1]
          rw [(parse_host_discovery_misc st line).2.2.1, p1]
        rw [if_neg p1]
        by_cases p2 : st.current_phase = "PORT_SCANNING"
        · rw [if_pos p2]
          rw [(parse_port_scanning_misc st line).2.2.1, p2]
        rw [if_neg p2]
        by_cases p3 : st.current_phase = "SERVICE_DETECTION"
        · rw [if_pos p3]
          rw [(parse_service_detection_misc st line).2.2.1, p3]
        rw [if_neg p3]

theorem phaseTrace_head (tm : Nat × String) (st : ParserState)
    (ls : List String) :
    ∃ t, phaseTrace tm st ls = st.current_phase :: t := by
  cases ls <;> exact ⟨_, rfl⟩

/-- If the phase-marker lines of the stream appear with nondecreasing
canonical indices, all of them at or above the starting phase, then the
phase only moves forward. -/
theorem phaseTrace_monotone (tm : Nat × String) (st : ParserState)
    (lines : List String)
    (h1 : ((lines.map pyRstrip).filterMap markerPhase?).Pairwise
            (fun a b => phaseIdx a ≤ phaseIdx b))
    (h2 : ∀ p ∈ (lines.map pyRstrip).filterMap markerPhase?,
            phaseIdx st.current_phase ≤ phaseIdx p) :
    List.Chain' (fun a b => phaseIdx a ≤ phaseIdx b)
      (phaseTrace tm st lines) := by
  induction lines generalizing st with
  | nil => simp [phaseTrace]
  | cons l ls ih =>
    cases hm : markerPhase? (pyRstrip l) with
    | none =>
      simp only [List.map_cons, List.filterMap_cons, hm] at h1 h2
      have hp := process_line_phase_none tm st (pyRstrip l) hm
      obtain ⟨t, ht⟩ :=
        phaseTrace_head tm (process_line tm st (pyRstrip l)).1 ls
      show List.Chain' _ (st.current_phase ::
        phaseTrace tm (process_line tm st (pyRstrip l)).1 ls)
      rw [ht, List.chain'_cons]
      refine ⟨by rw [hp], ?_⟩
      rw [← ht]
      exact ih _ h1 (by rw [hp]; exact h2)
    | some p =>
      simp only [List.map_cons, List.filterMap_cons, hm] at h1 h2
      rw [List.pairwise_cons] at h1
      have hp := process_line_phase_marker tm st (pyRstrip l) p hm
      obtain ⟨t, ht⟩ :=
        phaseTrace_head tm (process_line tm st (pyRstrip l)).1 ls
      show List.Chain' _ (st.current_phase ::
        phaseTrace tm (process_line tm st (pyRstrip l)).1 ls)
      rw [ht, List.chain'_cons]
      refine ⟨by rw [hp]; exact h2 p (List.mem_cons_self p _), ?_⟩
      rw [← ht]
      exact ih _ h1.2 (by rw [hp]; exact h1.1)

/-- C4: processing a well-formed row line whose dedup key is already in
the relevant collection is a silent no-op (same state, no output);
consequently every reachable state has at most one record per dedup key,
and already collected records are never changed or removed, so each key
holds the field values of its first occurrence. -/
theorem claim_C4 :
    (∀ (tm : Nat × String) (st : ParserState) (line : String),
        ¬ pyStrip line = "" → plainLine line → dupRow st line →
        process_line tm st line = (st, [])) ∧
    (∀ (tm : Nat × String) (lines : List String),
        KeysOk (runState tm initState lines)) ∧
    (∀ (tm : Nat × String) (st : ParserState) (line : String),
        (∀ r ∈ st.hosts_data, r ∈ (process_line tm st line).1.hosts_data) ∧
        (∀ r ∈ st.ports_data, r ∈ (process_line tm st line).1.ports_data) ∧
        (∀ r ∈ st.services_data,
           r ∈ (process_line tm st line).1.services_data)) := by
  refine ⟨?_, ?_, ?_⟩
  · intro tm st line h0 hp hdup
    rw [process_line_dispatch tm st line h0 hp]
    rcases hdup with ⟨hph, ip, mac, vendor, hm, hd⟩ |
      ⟨hph, ip, port, proto, state, svc, hm, hd⟩ |
      ⟨hph, ip, port, proto, state, svc, fp, hm, hd⟩
    · rw [if_pos hph]
      exact parse_host_discovery_dup st line ip mac vendor hm hd
    · rw [if_neg (by rw [hph]; decide), if_pos hph]
      exact parse_port_scanning_dup st line ip port proto state svc hm hd
    · rw [if_neg (by rw [hph]; decide), if_neg (by rw [hph]; decide),
          if_pos hph]
      exact parse_service_detection_dup st line ip port proto state svc fp
        hm hd
  · intro tm lines
    exact runState_keysOk tm initState lines ⟨List.nodup_nil, List.nodup_nil,
      List.nodup_nil⟩
  · intro tm st line
    exact process_line_mem_preserved tm st line

theorem claim_C4_witness :
    (¬ pyStrip "1.2.3.4 None Acme" = "") ∧
    plainLine "1.2.3.4 None Acme" ∧
    dupRow stDup "1.2.3.4 None Acme" ∧
    process_line (0, "T") stDup "1.2.3.4 None Acme" = (stDup, []) :=
  ⟨by decide, by unfold plainLine; decide,
   Or.inl ⟨rfl, "1.2.3.4", "None", "Acme", by decide, by decide⟩,
   claim_C4.1 (0, "T") stDup "1.2.3.4 None Acme" (by decide)
     (by unfold plainLine; decide)
     (Or.inl ⟨rfl, "1.2.3.4", "None", "Acme", by decide, by decide⟩)⟩

/-- C5: the exposure percentage is exactly
`100 * distinct_hosts_with_open_ports / total_hosts`, and `0` with no
hosts discovered (the guard avoids the division). -/
theorem claim_C5 (st : ParserState) :
    (st.hosts_data.length = 0 → exposure_percent st = 0) ∧
    (st.hosts_data.length ≠ 0 →
      exposure_percent st =
        100 * (uniqueHostsWithPorts st : ℚ) / (st.hosts_data.length : ℚ)) := by
  constructor
  · intro h
    unfold exposure_percent
    rw [if_neg (by omega)]
  · intro h
    unfold exposure_percent
    rw [if_pos (Nat.pos_of_ne_zero h)]
    ring

theorem claim_C5_witness :
    stTwoHosts.hosts_data.length ≠ 0 ∧
    exposure_percent stTwoHosts =
      100 * (uniqueHostsWithPorts stTwoHosts : ℚ) /
        (stTwoHosts.hosts_data.length : ℚ) :=
  ⟨by decide, (claim_C5 stTwoHosts).2 (by decide)⟩

/-- C10: a service-detection row is accumulated whatever its state token
says (`closed`, `filtered`, anything): if its (IP, Port) key is fresh, a
record is appended and a discovery notice is printed. -/
theorem claim_C10 (st : ParserState) (line ip port proto state svc fp : String)
    (hm : matchServiceRow line = some (ip, port, proto, state, svc, fp))
    (hfresh : st.services_data.any
      (fun s => s.IP = ip ∧ s.Port = toNatD port) = false) :
    (parse_service_detection st line).1.services_data =
      st.services_data ++
        [{ IP := ip, Port := toNatD port, Protocol := proto, State := state,
           Service := svc,
           Fingerprint := if pyStrip fp ≠ "" then pyStrip fp else "—" }] ∧
    (parse_service_detection st line).2 ≠ [] := by
  unfold parse_service_detection
  rw [hm]
  dsimp only
  rw [if_pos (by simpa using hfresh)]
  exact ⟨rfl, by simp⟩

/-- A port row whose state token differs from `"open"` is dropped without
any state change or output. -/
theorem parse_port_scanning_nonopen (st : ParserState)
    (line ip port proto state svc : String)
    (hm : matchPortRow line = some (ip, port, proto, state, svc))
    (hs : state ≠ "open") : parse_port_scanning st line = (st, []) := by
  unfold parse_port_scanning
  rw [hm]
  dsimp only
  rw [if_neg hs]

theorem accum_ports_open {st st' : ParserState} (ha : Accum st st')
    (h : ∀ p ∈ st.ports_data, p.State = "open") :
    ∀ p ∈ st'.ports_data, p.State = "open" := by
  rcases ha.2.1 with he | ⟨r, he, -, hop⟩ <;> rw [he]
  · exact h
  · intro p hp
    rcases List.mem_append.mp hp with h1 | h1
    · exact h p h1
    · rw [List.mem_singleton.mp h1]
      exact hop

theorem runState_ports_open (tm : Nat × String) (st : ParserState)
    (lines : List String) (h : ∀ p ∈ st.ports_data, p.State = "open") :
    ∀ p ∈ (runState tm st lines).ports_data, p.State = "open" := by
  induction lines generalizing st with
  | nil => exact h
  | cons l ls ih =>
    exact ih _ (accum_ports_open (process_line_step tm st (pyRstrip l)) h)

/-- Counterexample to C6 as stated: a port row with port `99999` (above
65535) is accepted and produces a PortRecord. -/
theorem claim_C6_cex :
    (runState (0, "") initState linesC6).ports_data =
      [{ IP := "1.2.3.4", Port := 99999, Protocol := "tcp", State := "open",
         Service := "ssh" }] ∧
    ¬ (99999 : Nat) ≤ 65535 :=
  ⟨by decide, by decide⟩

/-- C6 (amended): every PortRecord ever accumulated has state `"open"`
(but its port number is unbounded — any digit run is accepted), and a
port row whose state is not `"open"` (e.g. `closed`, `filtered`) never
changes the state nor prints. -/
theorem claim_C6 :
    (∀ (tm : Nat × String) (lines : List String),
        ∀ p ∈ (runState tm initState lines).ports_data, p.State = "open") ∧
    (∀ (st : ParserState) (line ip port proto state svc : String),
        matchPortRow line = some (ip, port, proto, state, svc) →
        state ≠ "open" → parse_port_scanning st line = (st, [])) := by
  constructor
  · intro tm lines
    exact runState_ports_open tm initState lines (by intro p hp; cases hp)
  · intro st line ip port proto state svc hm hs
    exact parse_port_scanning_nonopen st line ip port proto state svc hm hs

theorem claim_C6_witness :
    matchPortRow "1.2.3.4 22 tcp closed r ssh" =
      some ("1.2.3.4", "22", "tcp", "closed", "ssh") ∧
    ("closed" : String) ≠ "open" ∧
    parse_port_scanning initState "1.2.3.4 22 tcp closed r ssh" =
      (initState, []) :=
  ⟨by decide, by decide,
   claim_C6.2 initState "1.2.3.4 22 tcp closed r ssh" "1.2.3.4" "22" "tcp"
     "closed" "ssh" (by decide) (by decide)⟩

/-!
### Sortedness of the stable sort
-/

theorem sinsert_mem {le : α → α → Bool} {x z : α} {l : List α} :
    z ∈ sinsert le x l ↔ z = x ∨ z ∈ l := by
  induction l with
  | nil => simp [sinsert]
  | cons y t ih =>
    by_cases h : le y x = true
    · simp only [sinsert, if_pos h, List.mem_cons, ih]
      constructor
      · rintro (rfl | h2 | h2) <;> tauto
      · rintro (rfl | rfl | h2) <;> tauto
    · simp only [sinsert, if_neg h, List.mem_cons]

theorem sinsert_pairwise {le : α → α → Bool}
    (htrans : ∀ a b c, le a b = true → le b c = true → le a c = true)
    (htot : ∀ a b, le a b = false → le b a = true)
    (x : α) (l : List α) (h : l.Pairwise (fun a b => le a b = true)) :
    (sinsert le x l).Pairwise (fun a b => le a b = true) := by
  induction l with
  | nil => simp [sinsert]
  | cons y t ih =>
    rw [List.pairwise_cons] at h
    by_cases hle : le y x = true
    · simp only [sinsert, if_pos hle]
      rw [List.pairwise_cons]
      refine ⟨?_, ih h.2⟩
      intro z hz
      rcases sinsert_mem.mp hz with rfl | hz'
      · exact hle
      · exact h.1 z hz'
    · simp only [sinsert, if_neg hle]
      rw [Bool.not_eq_true] at hle
      have hxy : le x y = true := htot y x hle
      rw [List.pairwise_cons]
      refine ⟨?_, List.pairwise_cons.mpr h⟩
      intro z hz
      rcases List.mem_cons.mp hz with rfl | hz'
      · exact hxy
      · exact htrans x y z hxy (h.1 z hz')

theorem pySorted_pairwise {le : α → α → Bool}
    (htrans : ∀ a b c, le a b = true → le b c = true → le a c = true)
    (htot : ∀ a b, le a b = false → le b a = true)
    (l : List α) :
    (pySorted le l).Pairwise (fun a b => le a b = true) := by
  suffices h : ∀ acc : List α, acc.Pairwise (fun a b => le a b = true) →
      (l.foldl (fun acc x => sinsert le x acc) acc).Pairwise
        (fun a b => le a b = true) from h [] List.Pairwise.nil
  induction l with
  | nil => exact fun acc h => h
  | cons x t ih =>
    intro acc hacc
    exact ih _ (sinsert_pairwise htrans htot x acc hacc)

theorem listStrLt_trans (as bs cs : List Char)
    (h1 : listStrLt as bs = true) (h2 : listStrLt bs cs = true) :
    listStrLt as cs = true := by
  induction as generalizing bs cs with
  | nil =>
    cases bs with
    | nil => simp [listStrLt] at h1
    | cons b bs =>
      cases cs with
      | nil => simp [listStrLt] at h2
      | cons c cs => rfl
  | cons a as ih =>
    cases bs with
    | nil => simp [listStrLt] at h1
    | cons b bs =>
      cases cs with
      | nil => simp [listStrLt] at h2
      | cons c cs =>
        simp only [listStrLt, Bool.or_eq_true, Bool.and_eq_true,
          decide_eq_true_eq] at h1 h2 ⊢
        rcases h1 with h1 | ⟨hab, h1'⟩
        · rcases h2 with h2 | ⟨hbc, h2'⟩
          · exact Or.inl (lt_trans h1 h2)
          · exact Or.inl (hbc ▸ h1)
        · rcases h2 with h2 | ⟨hbc, h2'⟩
          · exact Or.inl (hab ▸ h2)
          · exact Or.inr ⟨hab.trans hbc, ih bs cs h1' h2'⟩

theorem listStrLt_asymm (as bs : List Char) (h : listStrLt as bs = true) :
    listStrLt bs as = false := by
  induction as generalizing bs with
  | nil =>
    cases bs with
    | nil => simp [listStrLt] at h
    | cons b bs => rfl
  | cons a as ih =>
    cases bs with
    | nil => simp [listStrLt] at h
    | cons b bs =>
      simp only [listStrLt, Bool.or_eq_true, Bool.and_eq_true,
        decide_eq_true_eq] at h
      simp only [listStrLt, Bool.or_eq_false_iff, Bool.and_eq_false_iff,
        decide_eq_false_iff_not]
      rcases h with h | ⟨hab, h'⟩
      · exact ⟨not_lt_of_lt h, Or.inl (ne_of_gt h)⟩
      · exact ⟨hab ▸ lt_irrefl a, Or.inr (ih bs h')⟩

theorem listStrLt_trichotomy (as bs : List Char) :
    listStrLt as bs = true ∨ as = bs ∨ listStrLt bs as = true := by
  induction as generalizing bs with
  | nil =>
    cases bs with
    | nil => exact Or.inr (Or.inl rfl)
    | cons b bs => exact Or.inl rfl
  | cons a as ih =>
    cases bs with
    | nil => exact Or.inr (Or.inr rfl)
    | cons b bs =>
      rcases lt_trichotomy a b with hab | hab | hab
      · exact Or.inl (by simp [listStrLt, hab])
      · subst hab
        rcases ih bs with h | h | h
        · exact Or.inl (by simp [listStrLt, h])
        · exact Or.inr (Or.inl (by rw [h]))
        · exact Or.inr (Or.inr (by simp [listStrLt, h]))
      · exact Or.inr (Or.inr (by simp [listStrLt, hab]))

theorem strLeB_trans (a b c : String) (h1 : strLeB a b = true)
    (h2 : strLeB b c = true) : strLeB a c = true := by
  unfold strLeB at *
  rw [Bool.not_eq_eq_eq_not, Bool.not_true] at h1 h2
  rw [Bool.not_eq_eq_eq_not, Bool.not_true]
  by_contra hx
  rw [Bool.not_eq_false] at hx
  rcases listStrLt_trichotomy a.data b.data with h | h | h
  · exact absurd (listStrLt_trans c.data a.data b.data hx h)
      (by rw [h2]; exact Bool.false_ne_true)
  · rw [h] at hx
    exact absurd hx (by rw [h2]; exact Bool.false_ne_true)
  · exact absurd h (by rw [h1]; exact Bool.false_ne_true)

theorem strLeB_total (a b : String) (h : strLeB a b = false) :
    strLeB b a = true := by
  unfold strLeB at *
  rw [Bool.not_eq_eq_eq_not, Bool.not_false] at h
  rw [Bool.not_eq_eq_eq_not, Bool.not_true]
  exact listStrLt_asymm b.data a.data h

theorem natListLe_trans (as bs cs : List Nat) (h1 : natListLe as bs = true)
    (h2 : natListLe bs cs = true) : natListLe as cs = true := by
  induction as generalizing bs cs with
  | nil => cases cs <;> rfl
  | cons a as ih =>
    cases bs with
    | nil => simp [natListLe] at h1
    | cons b bs =>
      cases cs with
      | nil => simp [natListLe] at h2
      | cons c cs =>
        simp only [natListLe, Bool.or_eq_true, Bool.and_eq_true,
          decide_eq_true_eq] at h1 h2 ⊢
        rcases h1 with h1 | ⟨hab, h1'⟩
        · rcases h2 with h2 | ⟨hbc, h2'⟩
          · exact Or.inl (by omega)
          · exact Or.inl (by omega)
        · rcases h2 with h2 | ⟨hbc, h2'⟩
          · exact Or.inl (by omega)
          · exact Or.inr ⟨by omega, ih bs cs h1' h2'⟩

theorem natListLe_total (as bs : List Nat) (h : natListLe as bs = false) :
    natListLe bs as = true := by
  induction as generalizing bs with
  | nil => simp [natListLe] at h
  | cons a as ih =>
    cases bs with
    | nil => rfl
    | cons b bs =>
      simp only [natListLe, Bool.or_eq_false_iff, Bool.and_eq_false_iff,
        decide_eq_false_iff_not] at h
      simp only [natListLe, Bool.or_eq_true, Bool.and_eq_true,
        decide_eq_true_eq]
      by_cases hab : a = b
      · subst hab
        rcases h.2 with h2 | h2
        · exact absurd rfl h2
        · exact Or.inr ⟨rfl, ih bs h2⟩
      · exact Or.inl (by omega)

/-!
### Line shapes of the summary renderers

To decide which summaries the interruption handler emitted, each
summary's banner line (`\nHOST DISCOVERY COMPLETE`, …) is shown to occur
in no other renderer's output: every line of every renderer either does
not start with a newline or has one of finitely many 12-character
prefixes.
-/

theorem head?_append {a t : String} {x : Char} (h : a.data.head? = some x) :
    (a ++ t).data.head? = some x := by
  show (a.data ++ t.data).head? = some x
  cases ha : a.data with
  | nil => rw [ha] at h; exact absurd h (by simp)
  | cons c l =>
    rw [ha] at h
    simpa using h

theorem head_ite_append (c : Prop) [Decidable c] (a b t : String) (x : Char)
    (ha : a.data.head? = some x) (hb : b.data.head? = some x) :
    ((if c then a else b) ++ t).data.head? = some x := by
  split
  · exact head?_append ha
  · exact head?_append hb

theorem mem_ite_or {c : Prop} [inst : Decidable c] {l1 l2 : List String}
    {s : String} (hs : s ∈ (if c then l1 else l2)) : s ∈ l1 ∨ s ∈ l2 := by
  split at hs
  · exact Or.inl hs
  · exact Or.inr hs

theorem ne_nl_of_head (c : Char) {s : String} (h : s.data.head? = some c)
    (hc : c ≠ '\n') : ¬ s.data.head? = some '\n' := by
  rw [h]
  intro he
  exact hc (Option.some.inj he)

theorem hd_shapes (st : ParserState) :
    ∀ s ∈ print_host_discovery_summary st,
      ¬ s.data.head? = some '\n' ∨ s.data.take 12 ∈ nlPrefixesHD := by
  intro s hs
  unfold print_host_discovery_summary at hs
  rcases List.mem_append.mp hs with h | h
  · rcases List.mem_cons.mp h with rfl | h
    · exact Or.inr (by decide)
    rcases List.mem_cons.mp h with rfl | h
    · exact Or.inl (by decide)
    rcases List.mem_cons.mp h with rfl | h
    · exact Or.inl (ne_nl_of_head 'T' rfl (by decide))
    · exact absurd h (List.not_mem_nil s)
  · rcases mem_ite_or h with h | h
    · rcases List.mem_cons.mp h with rfl | h
      · exact Or.inr (by decide)
      rcases List.mem_append.mp h with h | h
      · obtain ⟨host, -, rfl⟩ := List.mem_map.mp h
        exact Or.inl (ne_nl_of_head ' ' rfl (by decide))
      · rcases mem_ite_or h with h | h
        · rcases List.mem_cons.mp h with rfl | h
          · exact Or.inr (show "\nDevice manu".data ∈ nlPrefixesHD from
              by decide)
          · exact absurd h (List.not_mem_nil s)
        · exact absurd h (List.not_mem_nil s)
    · exact absurd h (List.not_mem_nil s)

theorem ps_shapes (st : ParserState) :
    ∀ s ∈ print_port_scanning_summary st,
      ¬ s.data.head? = some '\n' ∨ s.data.take 12 ∈ nlPrefixesPS := by
  intro s hs
  unfold print_port_scanning_summary at hs
  rcases List.mem_append.mp hs with h | h
  · rcases List.mem_cons.mp h with rfl | h
    · exact Or.inr (by decide)
    rcases List.mem_cons.mp h with rfl | h
    · exact Or.inl (by decide)
    rcases List.mem_cons.mp h with rfl | h
    · exact Or.inl (ne_nl_of_head 'T' rfl (by decide))
    · exact absurd h (List.not_mem_nil s)
  · rcases mem_ite_or h with h | h
    · rcases List.mem_cons.mp h with rfl | h
      · exact Or.inr (by decide)
      rcases List.mem_append.mp h with h | h
      · obtain ⟨ip, -, rfl⟩ := List.mem_map.mp h
        exact Or.inl (ne_nl_of_head ' ' rfl (by decide))
      · rcases List.mem_cons.mp h with rfl | h
        · exact Or.inr (show "\nHosts with ".data ∈ nlPrefixesPS from
            by decide)
        · exact absurd h (List.not_mem_nil s)
    · rcases List.mem_cons.mp h with rfl | h
      · exact Or.inr (by decide)
      · exact absurd h (List.not_mem_nil s)

theorem tree_shapes (st : ParserState) :
    ∀ s ∈ print_network_tree st,
      ¬ s.data.head? = some '\n' ∨ s.data.take 12 ∈ nlPrefixesFS := by
  intro s hs
  unfold print_network_tree at hs
  rcases List.mem_append.mp hs with h | h
  · rcases List.mem_append.mp h with h | h
    · rcases List.mem_cons.mp h with rfl | h
      · exact Or.inr (by decide)
      rcases List.mem_cons.mp h with rfl | h
      · exact Or.inl (by decide)
      · exact absurd h (List.not_mem_nil s)
    · dsimp only at h
      rcases List.mem_cons.mp h with rfl | h
      · exact Or.inl (ne_nl_of_head 'N' rfl (by decide))
      · exact absurd h (List.not_mem_nil s)
  · split at h
    · rcases List.mem_cons.mp h with rfl | h
      · exact Or.inl (by decide)
      · exact absurd h (List.not_mem_nil s)
    · dsimp only at h
      obtain ⟨e, -, hfe⟩ := List.mem_flatMap.mp h
      rcases List.mem_cons.mp hfe with rfl | hfe
      · refine Or.inl (ne_nl_of_head ' ' ?_ (by decide))
        repeat apply head?_append
        repeat' split
        all_goals rfl
      rcases mem_ite_or hfe with h2 | h2
      · rcases List.mem_cons.mp h2 with rfl | h2
        · refine Or.inl (ne_nl_of_head ' ' ?_ (by decide))
          repeat apply head?_append
          repeat' split
          all_goals rfl
        · exact absurd h2 (List.not_mem_nil s)
      · obtain ⟨pe, -, hfpe⟩ := List.mem_flatMap.mp h2
        rcases List.mem_cons.mp hfpe with rfl | hfpe
        · refine Or.inl (ne_nl_of_head ' ' ?_ (by decide))
          repeat apply head?_append
          repeat' split
          all_goals rfl
        · split at hfpe
          · exact absurd hfpe (List.not_mem_nil s)
          · rcases mem_ite_or hfpe with h3 | h3
            · rcases List.mem_cons.mp h3 with rfl | h3
              · refine Or.inl (ne_nl_of_head ' ' ?_ (by decide))
                repeat apply head?_append
                repeat' split
                all_goals rfl
              · exact absurd h3 (List.not_mem_nil s)
            · exact absurd h3 (List.not_mem_nil s)

theorem final_shapes (st : ParserState) (elapsed : Nat) (now : String) :
    ∀ s ∈ print_final_summary st elapsed now,
      ¬ s.data.head? = some '\n' ∨ s.data.take 12 ∈ nlPrefixesFS := by
  intro s hs
  unfold print_final_summary at hs
  rcases List.mem_append.mp hs with h | h
  rotate_left
  · rcases List.mem_cons.mp h with rfl | h
    · exact Or.inl (by decide)
    · exact absurd h (List.not_mem_nil s)
  rcases List.mem_append.mp h with h | h
  rotate_left
  · exact tree_shapes st s h
  rcases List.mem_append.mp h with h | h
  rotate_left
  · rcases List.mem_cons.mp h with rfl | h
    · exact Or.inr (show "\n───────────".data ∈ nlPrefixesFS from by decide)
    rcases List.mem_cons.mp h with rfl | h
    · exact Or.inl (ne_nl_of_head 'R' rfl (by decide))
    rcases List.mem_cons.mp h with rfl | h
    · exact Or.inl (by decide)
    · exact absurd h (List.not_mem_nil s)
  rcases List.mem_append.mp h with h | h
  rotate_left
  · -- topology block
    rcases mem_ite_or h with h | h
    rotate_left
    · exact absurd h (List.not_mem_nil s)
    try dsimp only at h
    rcases List.mem_cons.mp h with rfl | h
    · exact Or.inr (by decide)
    rcases List.mem_cons.mp h with rfl | h
    · exact Or.inl (by decide)
    rcases List.mem_cons.mp h with rfl | h
    · exact Or.inl (ne_nl_of_head 'D' rfl (by decide))
    rcases mem_ite_or h with h | h
    rotate_left
    · exact absurd h (List.not_mem_nil s)
    rcases mem_ite_or h with h | h
    rotate_left
    · exact absurd h (List.not_mem_nil s)
    try dsimp only at h
    rcases List.mem_cons.mp h with rfl | h
    · exact Or.inl (ne_nl_of_head 'C' rfl (by decide))
    · exact absurd h (List.not_mem_nil s)
  rcases List.mem_append.mp h with h | h
  rotate_left
  · -- fingerprints block
    try dsimp only at h
    rcases mem_ite_or h with h | h
    rotate_left
    · exact absurd h (List.not_mem_nil s)
    rcases List.mem_cons.mp h with rfl | h
    · exact Or.inr (by decide)
    rcases List.mem_cons.mp h with rfl | h
    · exact Or.inl (by decide)
    obtain ⟨sv, -, hsv⟩ := List.mem_flatMap.mp h
    rcases List.mem_cons.mp hsv with rfl | hsv
    · exact Or.inl (ne_nl_of_head ' ' rfl (by decide))
    rcases List.mem_cons.mp hsv with rfl | hsv
    · exact Or.inl (ne_nl_of_head ' ' rfl (by decide))
    · exact absurd hsv (List.not_mem_nil s)
  rcases List.mem_append.mp h with h | h
  · -- header six lines
    rcases List.mem_cons.mp h with rfl | h
    · exact Or.inr (by decide)
    rcases List.mem_cons.mp h with rfl | h
    · exact Or.inl (by decide)
    rcases List.mem_cons.mp h with rfl | h
    · exact Or.inr (by decide)
    rcases List.mem_cons.mp h with rfl | h
    · exact Or.inl (by decide)
    rcases List.mem_cons.mp h with rfl | h
    · exact Or.inl (ne_nl_of_head 'S' rfl (by decide))
    rcases List.mem_cons.mp h with rfl | h
    · exact Or.inl (ne_nl_of_head 'H' rfl (by decide))
    rcases List.mem_cons.mp h with rfl | h
    · exact Or.inl (ne_nl_of_head 'O' rfl (by decide))
    rcases List.mem_cons.mp h with rfl | h
    · exact Or.inl (ne_nl_of_head 'S' rfl (by decide))
    · exact absurd h (List.not_mem_nil s)
  · -- security assessment block
    rcases mem_ite_or h with h | h
    rotate_left
    · exact absurd h (List.not_mem_nil s)
    try dsimp only at h
    rcases List.mem_append.mp h with h | h
    · rcases List.mem_cons.mp h with rfl | h
      · exact Or.inr (by decide)
      rcases List.mem_cons.mp h with rfl | h
      · exact Or.inl (by decide)
      rcases List.mem_cons.mp h with rfl | h
      · exact Or.inl (ne_nl_of_head 'N' rfl (by decide))
      · exact absurd h (List.not_mem_nil s)
    · rcases mem_ite_or h with h | h
      · rcases List.mem_cons.mp h with rfl | h
        · exact Or.inl (ne_nl_of_head 'C' rfl (by decide))
        obtain ⟨p, -, rfl⟩ := List.mem_map.mp h
        exact Or.inl (ne_nl_of_head ' ' rfl (by decide))
      · rcases List.mem_cons.mp h with rfl | h
        · exact Or.inl (by decide)
        · exact absurd h (List.not_mem_nil s)

/-!
### C9: unparseable lines are skipped without effect
-/

theorem parse_host_discovery_nomatch (st : ParserState) (line : String)
    (hm : matchHostRow line = none) :
    parse_host_discovery st line = (st, []) := by
  unfold parse_host_discovery
  rw [hm]

theorem parse_port_scanning_nomatch (st : ParserState) (line : String)
    (hm : matchPortRow line = none) :
    parse_port_scanning st line = (st, []) := by
  unfold parse_port_scanning
  rw [hm]

theorem parse_service_detection_nomatch (st : ParserState) (line : String)
    (hm : matchServiceRow line = none) :
    parse_service_detection st line = (st, []) := by
  unfold parse_service_detection
  rw [hm]

/-- A line that matches no classifier shape and no row pattern is a
complete no-op, whatever the current state. -/
theorem process_line_noop (tm : Nat × String) (st : ParserState)
    (line : String) (hp : plainLine line)
    (hh : matchHostRow line = none) (hpo : matchPortRow line = none)
    (hs : matchServiceRow line = none) :
    process_line tm st line = (st, []) := by
  by_cases h0 : pyStrip line = ""
  · exact process_line_blank tm st line h0
  rw [process_line_dispatch tm st line h0 hp]
  by_cases p1 : st.current_phase = "HOST_DISCOVERY"
  · rw [if_pos p1]
    exact parse_host_discovery_nomatch st line hh
  rw [if_neg p1]
  by_cases p2 : st.current_phase = "PORT_SCANNING"
  · rw [if_pos p2]
    exact parse_port_scanning_nomatch st line hpo
  rw [if_neg p2]
  by_cases p3 : st.current_phase = "SERVICE_DETECTION"
  · rw [if_pos p3]
    exact parse_service_detection_nomatch st line hs
  rw [if_neg p3]

/-- Removing a line that is a universal no-op does not change any later
state: processing continues exactly as if the line were absent. -/
theorem runState_skip (tm : Nat × String) (st : ParserState)
    (pre post : List String) (line : String)
    (h : ∀ s : ParserState, process_line tm s (pyRstrip line) = (s, [])) :
    runState tm st (pre ++ line :: post) = runState tm st (pre ++ post) := by
  unfold runState
  rw [List.foldl_append, List.foldl_append, List.foldl_cons]
  congr 1
  rw [h]

/-- C9: a line on which the phase row parser fails (in particular a
near-miss port row with a non-numeric port field) is skipped with no
output and no state change, processing is never aborted (`process_line`
is total), and all subsequent lines are handled exactly as if the bad
line had not been there. -/
theorem claim_C9 :
    (∀ (tm : Nat × String) (st : ParserState) (line : String),
        plainLine line → st.current_phase = "PORT_SCANNING" →
        matchPortRow line = none →
        process_line tm st line = (st, [])) ∧
    (∀ (tm : Nat × String) (st : ParserState) (pre post : List String)
        (line : String),
        plainLine (pyRstrip line) →
        matchHostRow (pyRstrip line) = none →
        matchPortRow (pyRstrip line) = none →
        matchServiceRow (pyRstrip line) = none →
        runState tm st (pre ++ line :: post) = runState tm st (pre ++ post)) := by
  constructor
  · intro tm st line hp hph hm
    by_cases h0 : pyStrip line = ""
    · exact process_line_blank tm st line h0
    rw [process_line_dispatch tm st line h0 hp, if_neg (by rw [hph]; decide),
        if_pos hph]
    exact parse_port_scanning_nomatch st line hm
  · intro tm st pre post line hp hh hpo hs
    exact runState_skip tm st pre post line
      (fun s => process_line_noop tm s (pyRstrip line) hp hh hpo hs)

theorem claim_C9_witness :
    plainLine "1.2.3.4 2x2 tcp open r ssh" ∧
    ({ initState with current_phase := "PORT_SCANNING" } :
      ParserState).current_phase = "PORT_SCANNING" ∧
    matchPortRow "1.2.3.4 2x2 tcp open r ssh" = none ∧
    process_line (0, "T") { initState with current_phase := "PORT_SCANNING" }
      "1.2.3.4 2x2 tcp open r ssh" =
      ({ initState with current_phase := "PORT_SCANNING" }, []) :=
  ⟨by unfold plainLine; decide, by decide, by decide,
   claim_C9.1 (0, "T") { initState with current_phase := "PORT_SCANNING" }
     "1.2.3.4 2x2 tcp open r ssh" (by unfold plainLine; decide) (by decide)
     (by decide)⟩

/-- Counterexample to C1 as stated: (a) the stream ends with the phase at
PORT_SCANNING (so the claim demands the Port Scanning summary), yet the
end-of-input handler emits no Port Scanning summary; (b) on user
cancellation with all three collections empty, no Final Summary is
emitted at all (the handler prints only the notice). -/
theorem claim_C1_cex :
    stC1.current_phase = "PORT_SCANNING" ∧
    stC1.hosts_data ≠ [] ∧
    "\nPORT SCANNING COMPLETE" ∉ interruption_eof (0, "T") stC1 ∧
    interruption_cancel (0, "T") initState =
      ["\n! Scan interrupted by user"] ∧
    "\n+ SCAN COMPLETED" ∉ interruption_cancel (0, "T") initState :=
  ⟨by decide, by decide, by decide, by decide, by decide⟩

/-- C1 (amended): on end of input before COMPLETE the handler prints the
interruption notice and then always the Final Summary (which always ends
with the Network Tree), even with all collections empty; it additionally
emits the Host Discovery summary exactly when the phase is PORT_SCANNING
or SERVICE_DETECTION and a host was collected, the Port Scanning summary
exactly when the phase is SERVICE_DETECTION and a port was collected, and
never the Service Detection summary. On user cancellation a different
notice is printed, and the Final Summary appears exactly when some
collection is non-empty. -/
theorem claim_C1 :
    (∀ (tm : Nat × String) (st : ParserState),
       ∃ pre, interruption_eof tm st =
         "\n! Scan interrupted - showing partial results" ::
         (pre ++ print_final_summary st tm.1 tm.2)) ∧
    (∀ (st : ParserState) (elapsed : Nat) (now : String),
       ∃ q, print_final_summary st elapsed now =
         q ++ print_network_tree st ++ [""]) ∧
    (∀ (tm : Nat × String) (st : ParserState),
       ("\nHOST DISCOVERY COMPLETE" ∈ interruption_eof tm st ↔
         ((st.current_phase = "PORT_SCANNING" ∨
           st.current_phase = "SERVICE_DETECTION") ∧ st.hosts_data ≠ []))) ∧
    (∀ (tm : Nat × String) (st : ParserState),
       ("\nPORT SCANNING COMPLETE" ∈ interruption_eof tm st ↔
         (st.current_phase = "SERVICE_DETECTION" ∧ st.ports_data ≠ []))) ∧
    (∀ (tm : Nat × String) (st : ParserState),
       "\nSERVICE DETECTION COMPLETE" ∉ interruption_eof tm st) ∧
    (∀ (tm : Nat × String) (st : ParserState),
       "\n+ SCAN COMPLETED" ∈ interruption_eof tm st ∧
       ("\n+ SCAN COMPLETED" ∈ interruption_cancel tm st ↔
         (st.hosts_data ≠ [] ∨ st.ports_data ≠ [] ∨
          st.services_data ≠ []))) ∧
    (∀ (start : String) (tm : Nat × String) (lines : List String),
       (runLines tm initState lines).1.current_phase ≠ "COMPLETE" →
       main_eof start tm lines =
         print_header start ++ (runLines tm initState lines).2 ++
         interruption_eof tm (runLines tm initState lines).1) := by
  refine ⟨?_, ?_, ?_, ?_, ?_, ?_, ?_⟩
  · intro tm st
    exact ⟨_, rfl⟩
  · intro st elapsed now
    unfold print_final_summary
    exact ⟨_, rfl⟩
  · intro tm st
    constructor
    · intro h
      rcases List.mem_cons.mp h with he | h
      · exact absurd he (by decide)
      rcases List.mem_append.mp h with h | h
      · split at h
        · next h1 => exact ⟨Or.inl h1.1, h1.2⟩
        · split at h
          · next h1 h2 =>
            rcases List.mem_append.mp h with h | h
            · split at h
              · next h3 => exact ⟨Or.inr h2, h3⟩
              · exact absurd h (List.not_mem_nil _)
            · split at h
              · rcases ps_shapes st _ h with hh | hh
                · exact absurd rfl hh
                · exact absurd hh (by decide)
              · exact absurd h (List.not_mem_nil _)
          · exact absurd h (List.not_mem_nil _)
      · rcases final_shapes st tm.1 tm.2 _ h with hh | hh
        · exact absurd rfl hh
        · exact absurd hh (by decide)
    · rintro ⟨hph, hh⟩
      refine List.mem_cons.mpr (Or.inr (List.mem_append.mpr (Or.inl ?_)))
      rcases hph with hph | hph
      · rw [if_pos ⟨hph, hh⟩]
        exact List.mem_append_left _ (List.mem_cons_self _ _)
      · rw [if_neg (fun hc => absurd (hph ▸ hc.1) (by decide)), if_pos hph]
        refine List.mem_append_left _ ?_
        rw [if_pos hh]
        exact List.mem_append_left _ (List.mem_cons_self _ _)
  · intro tm st
    constructor
    · intro h
      rcases List.mem_cons.mp h with he | h
      · exact absurd he (by decide)
      rcases List.mem_append.mp h with h | h
      · split at h
        · rcases hd_shapes st _ h with hh | hh
          · exact absurd rfl hh
          · exact absurd hh (by decide)
        · split at h
          · next h1 h2 =>
            rcases List.mem_append.mp h with h | h
            · split at h
              · rcases hd_shapes st _ h with hh | hh
                · exact absurd rfl hh
                · exact absurd hh (by decide)
              · exact absurd h (List.not_mem_nil _)
            · split at h
              · next h3 => exact ⟨h2, h3⟩
              · exact absurd h (List.not_mem_nil _)
          · exact absurd h (List.not_mem_nil _)
      · rcases final_shapes st tm.1 tm.2 _ h with hh | hh
        · exact absurd rfl hh
        · exact absurd hh (by decide)
    · rintro ⟨hph, hp⟩
      refine List.mem_cons.mpr (Or.inr (List.mem_append.mpr (Or.inl ?_)))
      rw [if_neg (fun hc => absurd (hph ▸ hc.1) (by decide)), if_pos hph]
      refine List.mem_append_right _ ?_
      rw [if_pos hp]
      exact List.mem_append_left _ (List.mem_cons_self _ _)
  · intro tm st h
    rcases List.mem_cons.mp h with he | h
    · exact absurd he (by decide)
    rcases List.mem_append.mp h with h | h
    · split at h
      · rcases hd_shapes st _ h with hh | hh
        · exact absurd rfl hh
        · exact absurd hh (by decide)
      · split at h
        · rcases List.mem_append.mp h with h | h
          · split at h
            · rcases hd_shapes st _ h with hh | hh
              · exact absurd rfl hh
              · exact absurd hh (by decide)
            · exact absurd h (List.not_mem_nil _)
          · split at h
            · rcases ps_shapes st _ h with hh | hh
              · exact absurd rfl hh
              · exact absurd hh (by decide)
            · exact absurd h (List.not_mem_nil _)
        · exact absurd h (List.not_mem_nil _)
    · rcases final_shapes st tm.1 tm.2 _ h with hh | hh
      · exact absurd rfl hh
      · exact absurd hh (by decide)
  · intro tm st
    constructor
    · refine List.mem_cons.mpr (Or.inr (List.mem_append.mpr (Or.inr ?_)))
      unfold print_final_summary
      exact List.mem_append_left _ (List.mem_append_left _
        (List.mem_append_left _ (List.mem_append_left _
          (List.mem_append_left _ (List.mem_append_left _
            (List.mem_cons_self _ _))))))
    · constructor
      · intro h
        rcases List.mem_cons.mp h with he | h
        · exact absurd he (by decide)
        split at h
        · next h1 => exact h1
        · exact absurd h (List.not_mem_nil _)
      · intro h1
        refine List.mem_cons.mpr (Or.inr ?_)
        rw [if_pos h1]
        unfold print_final_summary
        exact List.mem_append_left _ (List.mem_append_left _
          (List.mem_append_left _ (List.mem_append_left _
            (List.mem_append_left _ (List.mem_append_left _
              (List.mem_cons_self _ _))))))
  · intro start tm lines h
    unfold main_eof
    dsimp only
    rw [if_pos h]

theorem claim_C1_witness :
    (runLines (0, "T") initState linesC1).1.current_phase ≠ "COMPLETE" ∧
    main_eof "S" (0, "T") linesC1 =
      print_header "S" ++ (runLines (0, "T") initState linesC1).2 ++
      interruption_eof (0, "T") (runLines (0, "T") initState linesC1).1 :=
  ⟨by decide, claim_C1.2.2.2.2.2.2 "S" (0, "T") linesC1 (by decide)⟩

/-- Counterexample to C7 as stated: host 10.0.0.1 was announced and
accumulated zero open ports of its own, the phase is PORT_SCANNING, yet
entering SERVICE_DETECTION emits no "(no open ports)" notice — the
has-ports flag was set by the port of a different host (10.0.0.2). -/
theorem claim_C7_cex :
    stC7.current_phase = "PORT_SCANNING" ∧
    stC7.current_host = some "10.0.0.1" ∧
    stC7.ports_data.filter (fun p => p.IP = "10.0.0.1") = [] ∧
    stC7.ports_data ≠ [] ∧
    "  (no open ports)" ∉
      (process_line (0, "T") stC7 "=== SERVICE DETECTION ===").2 :=
  ⟨by decide, by decide, by decide, by decide, by decide⟩

/-- C7 (amended): at its two trigger points (a new `Scanning` line, entry
into SERVICE_DETECTION) the notice is emitted iff a current host is set,
the phase is PORT_SCANNING, and the has-ports flag is clear — and that
flag is set by the accumulation of any new open-port record (for any
host), and cleared at each announcement; after the SERVICE_DETECTION
entry the phase has left PORT_SCANNING, so the check cannot fire again
without a new PORT_SCANNING marker. -/
theorem claim_C7 :
    (∀ st : ParserState,
        (handle_host_transition st = ["  (no open ports)"] ∨
         handle_host_transition st = []) ∧
        (handle_host_transition st ≠ [] ↔
          (truthyHost st.current_host = true ∧
           st.current_host_has_ports = false ∧
           st.current_phase = "PORT_SCANNING"))) ∧
    (∀ (tm : Nat × String) (st : ParserState) (line : String),
        ¬ pyStrip line = "" →
        strContainsSub line "=== HOST DISCOVERY ===" = false →
        strContainsSub line "=== PORT SCANNING ===" = false →
        strContainsSub line "=== SERVICE DETECTION ===" = true →
        (process_line tm st line).2 =
          handle_host_transition st ++
          print_port_scanning_summary
            { st with current_phase := "SERVICE_DETECTION",
                      total_services := st.ports_data.length,
                      service_count := 0 }
          ++ print_phase_header "SERVICE DETECTION" ∧
        handle_host_transition (process_line tm st line).1 = []) ∧
    (∀ (tm : Nat × String) (st : ParserState) (line ip : String),
        ¬ pyStrip line = "" →
        strContainsSub line "=== HOST DISCOVERY ===" = false →
        strContainsSub line "=== PORT SCANNING ===" = false →
        strContainsSub line "=== SERVICE DETECTION ===" = false →
        strContainsSub line "Scan complete!" = false →
        searchHostScan line = some ip →
        (process_line tm st line).2 =
          handle_host_transition st ++ ["\n-> Scanning " ++ ip ++ "..."] ∧
        (process_line tm st line).1.current_host = some ip ∧
        (process_line tm st line).1.current_host_has_ports = false) ∧
    (∀ (st : ParserState) (line : String),
        parse_port_scanning st line = (st, []) ∨
        ((parse_port_scanning st line).1.current_host_has_ports = true ∧
         (parse_port_scanning st line).1.ports_data ≠ st.ports_data)) := by
  refine ⟨?_, ?_, ?_, ?_⟩
  · intro st
    unfold handle_host_transition
    by_cases h : truthyHost st.current_host = true ∧
        ¬ st.current_host_has_ports = true ∧
        st.current_phase = "PORT_SCANNING"
    · rw [if_pos h]
      refine ⟨Or.inl rfl, ?_⟩
      constructor
      · intro _
        exact ⟨h.1, Bool.eq_false_iff.mpr h.2.1, h.2.2⟩
      · intro _
        simp
    · rw [if_neg h]
      refine ⟨Or.inr rfl, ?_⟩
      constructor
      · intro hx
        exact absurd rfl hx
      · intro hc
        exact absurd ⟨hc.1, by simp [hc.2.1], hc.2.2⟩ h
  · intro tm st line h0 h1 h2 h3
    rw [process_line_sd_marker tm st line h0 h1 h2 h3]
    refine ⟨rfl, ?_⟩
    unfold handle_host_transition
    rw [if_neg (fun hc => absurd
      (show ("SERVICE_DETECTION" : String) = "PORT_SCANNING" from hc.2.2)
      (by decide))]
  · intro tm st line ip h0 h1 h2 h3 h4 h5
    rw [process_line_scanning tm st line ip h0 h1 h2 h3 h4 h5]
    exact ⟨rfl, rfl, rfl⟩
  · intro st line
    exact parse_port_scanning_flag st line

theorem claim_C7_witness :
    (¬ pyStrip "=== SERVICE DETECTION ===" = "") ∧
    (process_line (0, "T")
      { initState with current_phase := "PORT_SCANNING",
                       current_host := some "10.0.0.9" }
      "=== SERVICE DETECTION ===").2 =
      handle_host_transition
        { initState with current_phase := "PORT_SCANNING",
                         current_host := some "10.0.0.9" } ++
      print_port_scanning_summary
        { initState with current_phase := "SERVICE_DETECTION",
                         current_host := some "10.0.0.9",
                         total_services := 0, service_count := 0 }
      ++ print_phase_header "SERVICE DETECTION" ∧
    handle_host_transition
      (process_line (0, "T")
        { initState with current_phase := "PORT_SCANNING",
                         current_host := some "10.0.0.9" }
        "=== SERVICE DETECTION ===").1 = [] :=
  ⟨by decide,
   claim_C7.2.1 (0, "T")
     { initState with current_phase := "PORT_SCANNING",
                      current_host := some "10.0.0.9" }
     "=== SERVICE DETECTION ===" (by decide) (by decide) (by decide)
     (by decide)⟩

/-!
### C2: the security assessment block of the Final Summary
-/

theorem ipPortLeB_trans (a b c : String × Nat) (h1 : ipPortLeB a b = true)
    (h2 : ipPortLeB b c = true) : ipPortLeB a c = true := by
  unfold ipPortLeB at *
  simp only [Bool.or_eq_true, Bool.and_eq_true, decide_eq_true_eq] at h1 h2 ⊢
  rcases h1 with h1 | ⟨he1, hp1⟩
  · rcases h2 with h2 | ⟨he2, hp2⟩
    · exact Or.inl (listStrLt_trans _ _ _ h1 h2)
    · exact Or.inl (by rw [← he2]; exact h1)
  · rcases h2 with h2 | ⟨he2, hp2⟩
    · exact Or.inl (by rw [he1]; exact h2)
    · exact Or.inr ⟨he1.trans he2, le_trans hp1 hp2⟩

theorem ipPortLeB_total (a b : String × Nat) (h : ipPortLeB a b = false) :
    ipPortLeB b a = true := by
  unfold ipPortLeB at *
  simp only [Bool.or_eq_false_iff, Bool.and_eq_false_iff,
    decide_eq_false_iff_not] at h
  simp only [Bool.or_eq_true, Bool.and_eq_true, decide_eq_true_eq]
  by_cases he : a.1 = b.1
  · rcases h.2 with h2 | h2
    · exact absurd he h2
    · exact Or.inr ⟨he.symm, by omega⟩
  · rcases listStrLt_trichotomy a.1.data b.1.data with hl | hl | hl
    · exact absurd hl (by rw [h.1]; exact Bool.false_ne_true)
    · exact absurd (congrArg String.mk hl) (by simpa using he)
    · exact Or.inl hl

/-- Counterexample to C2 as stated: with a host discovered and zero open
ports, the Final Summary contains neither a network-exposure line nor
any critical-services line (the whole security assessment is skipped),
rather than showing exposure 0.0%. -/
theorem claim_C2_cex :
    stC2.hosts_data ≠ [] ∧ stC2.ports_data = [] ∧
    (print_final_summary stC2 0 "T").all
      (fun s => !("Network Exposure".data.isPrefixOf s.data)) = true ∧
    (print_final_summary stC2 0 "T").all
      (fun s => !("Critical Services".data.isPrefixOf s.data)) = true :=
  ⟨by decide, by decide, by decide, by decide⟩

/-- C2 (amended): whenever at least one open port was recorded, the Final
Summary contains the network-exposure line and a critical-services line
(the risky-port list when the intersection with
{21,22,23,80,443,3389,5900,8080,8443} is non-empty, sorted by (IP, Port),
else the clean-bill notice); with zero open ports the whole block is
omitted, even when hosts were discovered. -/
theorem claim_C2 (st : ParserState) (elapsed : Nat) (now : String)
    (hne : st.ports_data ≠ []) :
    (∃ s ∈ print_final_summary st elapsed now,
       ("Network Exposure : ".data.isPrefixOf s.data) = true) ∧
    (∃ s ∈ print_final_summary st elapsed now,
       ("Critical Services: ".data.isPrefixOf s.data) = true) ∧
    (riskyOrder st).Pairwise
      (fun a b => ipPortLeB (a.IP, a.Port) (b.IP, b.Port) = true) := by
  refine ⟨?_, ?_, ?_⟩
  · refine ⟨"Network Exposure : " ++ fmtPct (exposure_percent st) ++ "% (" ++
      toString (uniqueHostsWithPorts st) ++ "/" ++
      toString st.hosts_data.length ++ " hosts)", ?_, ?_⟩
    · unfold print_final_summary
      rw [if_pos hne]
      simp [List.mem_append]
    · rw [List.isPrefixOf_iff_prefix]
      show "Network Exposure : ".data <+: _ ++ _
      refine List.IsPrefix.trans ?_ (List.prefix_append _ _)
      show "Network Exposure : ".data <+: _ ++ _
      refine List.IsPrefix.trans ?_ (List.prefix_append _ _)
      show "Network Exposure : ".data <+: _ ++ _
      refine List.IsPrefix.trans ?_ (List.prefix_append _ _)
      show "Network Exposure : ".data <+: _ ++ _
      refine List.IsPrefix.trans ?_ (List.prefix_append _ _)
      exact List.prefix_append _ _
  · by_cases hr : st.ports_data.filter
      (fun p => risky_ports.contains p.Port) ≠ []
    · refine ⟨"Critical Services: " ++
        toString (st.ports_data.filter
          (fun p => risky_ports.contains p.Port)).length ++ " found", ?_, ?_⟩
      · unfold print_final_summary
        rw [if_pos hne]
        dsimp only
        rw [if_pos hr]
        simp [List.mem_append]
      · rw [List.isPrefixOf_iff_prefix]
        show "Critical Services: ".data <+: _ ++ _
        refine List.IsPrefix.trans ?_ (List.prefix_append _ _)
        exact List.prefix_append _ _
    · refine ⟨"Critical Services: None detected", ?_, by decide⟩
      unfold print_final_summary
      rw [if_pos hne]
      dsimp only
      rw [if_neg hr]
      simp [List.mem_append]
  · exact pySorted_pairwise
      (fun a b c => ipPortLeB_trans (a.IP, a.Port) (b.IP, b.Port)
        (c.IP, c.Port))
      (fun a b => ipPortLeB_total (a.IP, a.Port) (b.IP, b.Port)) _

theorem claim_C2_witness :
    stTwoHosts.ports_data ≠ [] ∧
    ((∃ s ∈ print_final_summary stTwoHosts 0 "T",
        ("Network Exposure : ".data.isPrefixOf s.data) = true) ∧
     (∃ s ∈ print_final_summary stTwoHosts 0 "T",
        ("Critical Services: ".data.isPrefixOf s.data) = true) ∧
     (riskyOrder stTwoHosts).Pairwise
       (fun a b => ipPortLeB (a.IP, a.Port) (b.IP, b.Port) = true)) :=
  ⟨by decide, claim_C2 stTwoHosts 0 "T" (by decide)⟩

/-!
### C3: ordering inside the Port Scanning summary and Network Tree
-/

theorem portKeyLe_trans (a b c : String)
    (h1 : decide (portEntryKey a ≤ portEntryKey b) = true)
    (h2 : decide (portEntryKey b ≤ portEntryKey c) = true) :
    decide (portEntryKey a ≤ portEntryKey c) = true := by
  rw [decide_eq_true_eq] at *
  omega

theorem portKeyLe_total (a b : String)
    (h : decide (portEntryKey a ≤ portEntryKey b) = false) :
    decide (portEntryKey b ≤ portEntryKey a) = true := by
  rw [← Bool.not_eq_true, decide_eq_true_eq] at h
  rw [decide_eq_true_eq]
  omega

/-- Counterexample to C3 as stated: in the Port Scanning summary the
hosts are sorted as strings, so `192.168.1.10` is listed before
`192.168.1.9` — not numeric ascending order. -/
theorem claim_C3_cex :
    portSummaryHostOrder stC3 = ["192.168.1.10", "192.168.1.9"] ∧
    natListLe (ipKey "192.168.1.10") (ipKey "192.168.1.9") = false ∧
    print_port_scanning_summary stC3 =
      ["\nPORT SCANNING COMPLETE", srep '─' 25, "Total open ports: 2",
       "\nOpen ports by host:",
       "  • 192.168.1.10: 22/ssh", "  • 192.168.1.9: 80/http",
       "\nHosts with open ports: 2/2"] :=
  ⟨by decide, by decide, by decide⟩

/-- C3 (amended): the Port Scanning summary lists hosts in lexicographic
string order of their IPs (not numeric order), each host's port entries
sorted ascending by port number; the Network Tree, by contrast, sorts
hosts by the numeric octet tuple. -/
theorem claim_C3 (st : ParserState) :
    (portSummaryHostOrder st).Pairwise (fun a b => strLeB a b = true) ∧
    (∀ ip, (portSummaryPortEntries st ip).Pairwise
      (fun a b => portEntryKey a ≤ portEntryKey b)) ∧
    (treeHostOrder st).Pairwise
      (fun a b => natListLe (ipKey a) (ipKey b) = true) ∧
    (st.ports_data ≠ [] →
      print_port_scanning_summary st =
        ["\nPORT SCANNING COMPLETE", srep '─' 25,
         "Total open ports: " ++ toString st.ports_data.length,
         "\nOpen ports by host:"]
        ++ (portSummaryHostOrder st).map (fun ip =>
             "  • " ++ ip ++ ": " ++
             String.intercalate ", " (portSummaryPortEntries st ip))
        ++ ["\nHosts with open ports: " ++
            toString (build_host_ports st.ports_data).length ++ "/" ++
            toString st.hosts_data.length]) := by
  refine ⟨?_, ?_, ?_, ?_⟩
  · exact pySorted_pairwise strLeB_trans strLeB_total _
  · intro ip
    have hpp := pySorted_pairwise portKeyLe_trans portKeyLe_total
      (lookupAssoc (build_host_ports st.ports_data) ip)
    refine hpp.imp ?_
    intro a b h
    rwa [decide_eq_true_eq] at h
  · exact pySorted_pairwise
      (fun a b c => natListLe_trans (ipKey a) (ipKey b) (ipKey c))
      (fun a b => natListLe_total (ipKey a) (ipKey b)) _
  · intro hne
    unfold print_port_scanning_summary
    rw [if_pos hne]
    rfl

theorem claim_C3_witness :
    stC3.ports_data ≠ [] ∧
    print_port_scanning_summary stC3 =
      ["\nPORT SCANNING COMPLETE", srep '─' 25,
       "Total open ports: " ++ toString stC3.ports_data.length,
       "\nOpen ports by host:"]
      ++ (portSummaryHostOrder stC3).map (fun ip =>
           "  • " ++ ip ++ ": " ++
           String.intercalate ", " (portSummaryPortEntries stC3 ip))
      ++ ["\nHosts with open ports: " ++
          toString (build_host_ports stC3.ports_data).length ++ "/" ++
          toString stC3.hosts_data.length] :=
  ⟨by decide, (claim_C3 stC3).2.2.2 (by decide)⟩

/-- Counterexample to C8 as stated: the machine trusts markers verbatim,
so an out-of-order marker stream drives the phase backwards
(PORT_SCANNING, then HOST_DISCOVERY again). -/
theorem claim_C8_cex :
    phaseTrace (0, "") initState linesC8 =
      ["STARTING", "PORT_SCANNING", "HOST_DISCOVERY"] ∧
    ¬ List.Chain' (fun a b => phaseIdx a ≤ phaseIdx b)
        (phaseTrace (0, "") initState linesC8) := by
  have h1 : phaseTrace (0, "") initState linesC8 =
      ["STARTING", "PORT_SCANNING", "HOST_DISCOVERY"] := by decide
  refine ⟨h1, ?_⟩
  rw [h1]
  intro h
  rw [List.chain'_cons, List.chain'_cons] at h
  exact absurd h.2.1 (by decide)

/-- C8 (amended): the phase is set verbatim from the first marker a line
contains (in the classifier's precedence order) and unchanged otherwise;
consequently the phase moves only forward on exactly those streams whose
marker lines appear with nondecreasing phase indices. -/
theorem claim_C8 :
    (∀ (tm : Nat × String) (st : ParserState) (line p : String),
        markerPhase? line = some p →
        (process_line tm st line).1.current_phase = p) ∧
    (∀ (tm : Nat × String) (st : ParserState) (line : String),
        markerPhase? line = none →
        (process_line tm st line).1.current_phase = st.current_phase) ∧
    (∀ (tm : Nat × String) (st : ParserState) (lines : List String),
        ((lines.map pyRstrip).filterMap markerPhase?).Pairwise
          (fun a b => phaseIdx a ≤ phaseIdx b) →
        (∀ p ∈ (lines.map pyRstrip).filterMap markerPhase?,
           phaseIdx st.current_phase ≤ phaseIdx p) →
        List.Chain' (fun a b => phaseIdx a ≤ phaseIdx b)
          (phaseTrace tm st lines)) :=
  ⟨fun tm st line p hm => process_line_phase_marker tm st line p hm,
   fun tm st line hm => process_line_phase_none tm st line hm,
   fun tm st lines h1 h2 => phaseTrace_monotone tm st lines h1 h2⟩

theorem claim_C8_witness :
    markerPhase? "=== SERVICE DETECTION ===" = some "SERVICE_DETECTION" ∧
    (process_line (0, "") initState
      "=== SERVICE DETECTION ===").1.current_phase = "SERVICE_DETECTION" :=
  ⟨by decide,
   claim_C8.1 (0, "") initState "=== SERVICE DETECTION ==="
     "SERVICE_DETECTION" (by decide)⟩

theorem claim_C10_witness :
    matchServiceRow "1.2.3.4 22 tcp closed ssh" =
      some ("1.2.3.4", "22", "tcp", "closed", "ssh", "") ∧
    initState.services_data.any
      (fun s => s.IP = "1.2.3.4" ∧ s.Port = toNatD "22") = false ∧
    ((parse_service_detection initState "1.2.3.4 22 tcp closed ssh").1.services_data =
      initState.services_data ++
        [{ IP := "1.2.3.4", Port := toNatD "22", Protocol := "tcp",
           State := "closed", Service := "ssh",
           Fingerprint := if pyStrip "" ≠ "" then pyStrip "" else "—" }] ∧
     (parse_service_detection initState "1.2.3.4 22 tcp closed ssh").2 ≠ []) :=
  ⟨by decide, by decide,
   claim_C10 initState "1.2.3.4 22 tcp closed ssh" "1.2.3.4" "22" "tcp"
     "closed" "ssh" "" (by decide) (by decide)⟩

end ScanParser
